import Mathlib

/-!
Shallow embedding of `app_with_statistics.py`, a Flask + SQLite backend for a
stretching-training manager mini-app.  The SQLite tables `studios` and
`training_sessions` are modelled as lists kept in insertion (rowid) order
inside a `Store`; the AUTOINCREMENT id allocators are modelled by the
`nextStudioId` / `nextSessionId` counters (SQLite allocates ids from a
per-table sequence shared by all tenants).  REAL columns are modelled as `ℚ`,
INTEGER columns as `ℤ` (ids as `ℕ`), the 0/1 `paid` column as `Bool`, and the
JSON-serialised attendee column as `List String`.  Each Flask route becomes a
pure function from the request data and the store to the JSON response (and
the updated store for mutations).
-/

/-- Row of the `studios` table. -/
structure Studio where
  id : Nat
  user_id : String
  name : String
  payment_per_client : ℚ
  minimum_payment : ℚ
  start_count_from : Int
  payment_individual : ℚ
  color : String
deriving DecidableEq

/-- Row of the `training_sessions` table.  `attendees` is the JSON-decoded
list stored in the `attendees` TEXT column; `payment_amount` is the unused
REAL column (always its default 0 in this code). -/
structure Session where
  id : Nat
  user_id : String
  studio_id : Nat
  date : String
  time : String
  duration : Int
  capacity : Int
  coach_name : String
  session_type : String
  paid : Bool
  attendees : List String
  payment_amount : ℚ
deriving DecidableEq

/-- The database: both tables in rowid (insertion) order plus the two
AUTOINCREMENT sequences. -/
structure Store where
  studios : List Studio
  sessions : List Session
  nextStudioId : Nat
  nextSessionId : Nat
deriving DecidableEq

/-- Fresh database (SQLite rowids start at 1). -/
def emptyStore : Store := ⟨[], [], 1, 1⟩

/-- JSON body of the studio POST/PUT endpoints (defaults for the optional
`paymentIndividual` / `color` keys are applied at the HTTP boundary). -/
structure StudioData where
  name : String
  paymentPerClient : ℚ
  minimumPayment : ℚ
  startCountFrom : Int
  paymentIndividual : ℚ
  color : String
deriving DecidableEq

/-- JSON body of the session POST/PUT endpoints. -/
structure SessionData where
  studioId : Nat
  date : String
  time : String
  duration : Int
  capacity : Int
  coachName : String
  sessionType : String
deriving DecidableEq

/-- Studio JSON shape returned by the studio endpoints. -/
structure StudioOut where
  id : Nat
  name : String
  paymentPerClient : ℚ
  minimumPayment : ℚ
  startCountFrom : Int
  paymentIndividual : ℚ
  color : String
deriving DecidableEq

/-- Session JSON shape returned by the session endpoints. -/
structure SessionOut where
  id : Nat
  studioId : Nat
  date : String
  time : String
  duration : Int
  capacity : Int
  coachName : String
  sessionType : String
  paid : Bool
  attendees : List String
  payment : ℚ
deriving DecidableEq

/-- JSON shape of `/api/stats`. -/
structure StatsOut where
  totalSessions : Nat
  totalAttendees : Nat
  paidRevenue : ℚ
  pendingRevenue : ℚ
deriving DecidableEq

/-- One record of the `sessions` array of `/api/stats/filtered`. -/
structure DetailedOut where
  id : Nat
  date : String
  time : String
  studioName : String
  coachName : String
  sessionType : String
  attendees : Nat
  capacity : Int
  payment : ℚ
  paid : Bool
deriving DecidableEq

/-- JSON shape of `/api/stats/filtered`. -/
structure FilteredStatsOut where
  totalSessions : Nat
  totalAttendees : Nat
  paidRevenue : ℚ
  pendingRevenue : ℚ
  groupSessions : Nat
  individualSessions : Nat
  sessions : List DetailedOut
deriving DecidableEq

/-- Query-string arguments of `/api/stats/filtered`; `studioId = none` models
an absent or `'all'` parameter. -/
structure FilterArgs where
  studioId : Option Nat
  dateFrom : Option String
  dateTo : Option String
deriving DecidableEq

/-- The possible JSON responses of the API, tagged with enough structure to
compare them; `error code msg` models `(jsonify({'error': msg}), code)`. -/
inductive Response where
  | studios (l : List StudioOut)
  | studio (s : StudioOut)
  | sessionList (l : List SessionOut)
  | session (s : SessionOut)
  | attendeesPayment (attendees : List String) (payment : ℚ)
  | successMsg (message : String)
  | successOnly
  | stats (s : StatsOut)
  | filteredStats (s : FilteredStatsOut)
  | error (status : Nat) (message : String)
deriving DecidableEq

/-- `calculate_payment(attendee_count, studio_dict)`: `0` when the studio did
not resolve, otherwise the minimum payment plus the per-client rate for every
attendee beyond the `start_count_from` threshold. -/
def calculate_payment (attendee_count : Int) (studio : Option Studio) : ℚ :=
  match studio with
  | none => 0
  | some d =>
    let total := d.minimum_payment
    if attendee_count > d.start_count_from then
      total + ((attendee_count - d.start_count_from : Int) : ℚ) * d.payment_per_client
    else
      total

/-- The `calculate_payment(n, studio) if studio else 0` idiom used at every
call site; since `calculate_payment` already returns 0 on a missing studio
this coincides with `calculate_payment`. -/
def paymentOrZero (n : Int) (studio : Option Studio) : ℚ :=
  match studio with
  | some d => calculate_payment n (some d)
  | none => 0

/-- `SELECT * FROM studios WHERE user_id = ?`. -/
def studiosFor (uid : String) (st : Store) : List Studio :=
  st.studios.filter (fun s => s.user_id == uid)

/-- `SELECT * FROM training_sessions WHERE user_id = ?`. -/
def sessionsFor (uid : String) (st : Store) : List Session :=
  st.sessions.filter (fun s => s.user_id == uid)

/-- `SELECT * FROM studios WHERE id = ? AND user_id = ?` (fetchone). -/
def findStudio (uid : String) (i : Nat) (st : Store) : Option Studio :=
  st.studios.find? (fun s => s.id == i && s.user_id == uid)

/-- `SELECT * FROM training_sessions WHERE id = ? AND user_id = ?` (fetchone). -/
def findSession (uid : String) (i : Nat) (st : Store) : Option Session :=
  st.sessions.find? (fun s => s.id == i && s.user_id == uid)

/-- The dict `{s['id']: s for s in studios-of-user}` consulted with `.get`;
ids are a primary key so the first match is the match. -/
def lookupStudio (studios : List Studio) (i : Nat) : Option Studio :=
  studios.find? (fun t => t.id == i)

/-- Payment derived for a session from the caller's studio dict, via the
`calculate_payment(...) if studio else 0` idiom. -/
def paymentOf (studios : List Studio) (s : Session) : ℚ :=
  paymentOrZero s.attendees.length (lookupStudio studios s.studio_id)

/-- JSON shaping of a studio row (`GET /api/studios` item). -/
def toStudioOut (s : Studio) : StudioOut :=
  ⟨s.id, s.name, s.payment_per_client, s.minimum_payment, s.start_count_from,
   s.payment_individual, s.color⟩

/-- JSON shaping of a session row with its derived payment
(`GET /api/sessions` item). -/
def toSessionOut (studios : List Studio) (s : Session) : SessionOut :=
  ⟨s.id, s.studio_id, s.date, s.time, s.duration, s.capacity, s.coach_name,
   s.session_type, s.paid, s.attendees, paymentOf studios s⟩

/-- `GET /api/studios`. -/
def get_studios (uid : String) (st : Store) : List StudioOut :=
  (studiosFor uid st).map toStudioOut

/-- `POST /api/studios`: inserts the studio under the caller's tenant key and
echoes it back with the freshly assigned id. -/
def add_studio (uid : String) (d : StudioData) (st : Store) : StudioOut × Store :=
  let sid := st.nextStudioId
  let s : Studio := ⟨sid, uid, d.name, d.paymentPerClient, d.minimumPayment,
    d.startCountFrom, d.paymentIndividual, d.color⟩
  (⟨sid, d.name, d.paymentPerClient, d.minimumPayment, d.startCountFrom,
    d.paymentIndividual, d.color⟩,
   { st with studios := st.studios ++ [s], nextStudioId := sid + 1 })

/-- `DELETE /api/studios/<id>`: 404 when the studio does not resolve under
this tenant, 400 when any of the tenant's sessions reference it, otherwise
deletes it. -/
def delete_studio (uid : String) (i : Nat) (st : Store) : Response × Store :=
  match findStudio uid i st with
  | none => (.error 404 "Studio not found", st)
  | some _ =>
    let cnt := (st.sessions.filter (fun s => s.studio_id == i && s.user_id == uid)).length
    if 0 < cnt then
      (.error 400 ("Cannot delete studio. It has " ++ toString cnt ++
        " training session(s) associated with it."), st)
    else
      (.successMsg "Studio deleted successfully",
       { st with studios := st.studios.filter (fun s => !(s.id == i && s.user_id == uid)) })

/-- `PUT /api/studios/<id>`: 404 when the studio does not resolve under this
tenant, otherwise overwrites its fields and echoes the request data. -/
def update_studio (uid : String) (i : Nat) (d : StudioData) (st : Store) :
    Response × Store :=
  match findStudio uid i st with
  | none => (.error 404 "Studio not found", st)
  | some _ =>
    (.studio ⟨i, d.name, d.paymentPerClient, d.minimumPayment, d.startCountFrom,
       d.paymentIndividual, d.color⟩,
     { st with studios := st.studios.map (fun s =>
        if s.id == i && s.user_id == uid then
          ⟨s.id, s.user_id, d.name, d.paymentPerClient, d.minimumPayment,
           d.startCountFrom, d.paymentIndividual, d.color⟩
        else s) })

/-- `GET /api/sessions`. -/
def get_sessions (uid : String) (st : Store) : List SessionOut :=
  (sessionsFor uid st).map (toSessionOut (studiosFor uid st))

/-- `POST /api/sessions`: 404 when `studioId` does not resolve under this
tenant, otherwise inserts the session with `paid = 0`, `attendees = '[]'`. -/
def add_session (uid : String) (d : SessionData) (st : Store) : Response × Store :=
  match findStudio uid d.studioId st with
  | none => (.error 404 "Studio not found", st)
  | some studio =>
    let sid := st.nextSessionId
    let s : Session := ⟨sid, uid, d.studioId, d.date, d.time, d.duration,
      d.capacity, d.coachName, d.sessionType, false, [], 0⟩
    (.session ⟨sid, d.studioId, d.date, d.time, d.duration, d.capacity,
       d.coachName, d.sessionType, false, [], calculate_payment 0 (some studio)⟩,
     { st with sessions := st.sessions ++ [s], nextSessionId := sid + 1 })

/-- `DELETE /api/sessions/<id>`. -/
def delete_session (uid : String) (i : Nat) (st : Store) : Response × Store :=
  match findSession uid i st with
  | none => (.error 404 "Session not found", st)
  | some _ =>
    (.successMsg "Session deleted successfully",
     { st with sessions := st.sessions.filter (fun s => !(s.id == i && s.user_id == uid)) })

/-- The SET clause of the session UPDATE: replaces exactly `studio_id`,
`date`, `time`, `duration`, `capacity`, `coach_name`, `session_type`. -/
def updateFields (d : SessionData) (s : Session) : Session :=
  { s with
    studio_id := d.studioId
    date := d.date
    time := d.time
    duration := d.duration
    capacity := d.capacity
    coach_name := d.coachName
    session_type := d.sessionType }

/-- `PUT /api/sessions/<id>`: tenant-scoped existence check, UPDATE of the
seven mutable fields, then re-read of the row and its studio to build the
response.  The unreachable re-read failure maps to a 500 (an unhandled
exception in the Python). -/
def update_session (uid : String) (i : Nat) (d : SessionData) (st : Store) :
    Response × Store :=
  match findSession uid i st with
  | none => (.error 404 "Session not found", st)
  | some _ =>
    let st' := { st with sessions := st.sessions.map (fun s =>
       if s.id == i && s.user_id == uid then updateFields d s else s) }
    match findSession uid i st' with
    | none => (.error 500 "Internal Server Error", st')
    | some s2 =>
      let studio := findStudio uid s2.studio_id st'
      (.session ⟨s2.id, s2.studio_id, s2.date, s2.time, s2.duration, s2.capacity,
         s2.coach_name, s2.session_type, s2.paid, s2.attendees,
         paymentOrZero s2.attendees.length studio⟩, st')

/-- `POST /api/sessions/<id>/attendees`: appends the name when it is not yet
present and the capacity is not reached, then re-reads the row and returns the
fresh attendee list with the freshly derived payment. -/
def add_attendee (uid : String) (i : Nat) (name : String) (st : Store) :
    Response × Store :=
  match findSession uid i st with
  | none => (.error 404 "Session not found", st)
  | some s =>
    let attendees := s.attendees
    let st' :=
      if ¬ (name ∈ attendees) ∧ (attendees.length : Int) < s.capacity then
        { st with sessions := st.sessions.map (fun t =>
           if t.id == i && t.user_id == uid then
             { t with attendees := attendees ++ [name] }
           else t) }
      else st
    match findSession uid i st' with
    | none => (.error 500 "Internal Server Error", st')
    | some s2 =>
      (.attendeesPayment s2.attendees
        (paymentOrZero s2.attendees.length (findStudio uid s2.studio_id st')), st')

/-- `DELETE /api/sessions/<id>/attendees/<name>`: removes the first occurrence
of the name when present (`list.remove`), then re-reads and responds as
`add_attendee` does. -/
def remove_attendee (uid : String) (i : Nat) (name : String) (st : Store) :
    Response × Store :=
  match findSession uid i st with
  | none => (.error 404 "Session not found", st)
  | some s =>
    let attendees := s.attendees
    let st' :=
      if name ∈ attendees then
        { st with sessions := st.sessions.map (fun t =>
           if t.id == i && t.user_id == uid then
             { t with attendees := attendees.erase name }
           else t) }
      else st
    match findSession uid i st' with
    | none => (.error 500 "Internal Server Error", st')
    | some s2 =>
      (.attendeesPayment s2.attendees
        (paymentOrZero s2.attendees.length (findStudio uid s2.studio_id st')), st')

/-- `PUT /api/sessions/<id>/mark-paid`: sets `paid = 1` unconditionally. -/
def mark_session_paid (uid : String) (i : Nat) (st : Store) : Response × Store :=
  match findSession uid i st with
  | none => (.error 404 "Session not found", st)
  | some _ =>
    (.successOnly,
     { st with sessions := st.sessions.map (fun s =>
        if s.id == i && s.user_id == uid then { s with paid := true } else s) })

/-- Loop body of `/api/stats`: accumulates total attendees, paid revenue and
pending revenue. -/
def statsStep (studios : List Studio) (acc : Nat × ℚ × ℚ) (s : Session) :
    Nat × ℚ × ℚ :=
  let payment := paymentOf studios s
  (acc.1 + s.attendees.length,
   if s.paid then (acc.2.1 + payment, acc.2.2) else (acc.2.1, acc.2.2 + payment))

/-- `GET /api/stats`. -/
def get_stats (uid : String) (st : Store) : StatsOut :=
  let sessions := sessionsFor uid st
  let studios := studiosFor uid st
  let a := sessions.foldl (statsStep studios) (0, 0, 0)
  ⟨sessions.length, a.1, a.2.1, a.2.2⟩

/-- The extra WHERE clauses of `/api/stats/filtered` (`studio_id = ?`,
`date >= ?`, `date <= ?`; SQLite compares TEXT dates bytewise, i.e.
lexicographically). -/
def filterClauses (q : FilterArgs) (s : Session) : Bool :=
  (match q.studioId with | none => true | some i => s.studio_id == i) &&
  (match q.dateFrom with | none => true | some d => decide (d ≤ s.date)) &&
  (match q.dateTo with | none => true | some d => decide (s.date ≤ d))

/-- Full WHERE clause of the filtered-stats query. -/
def sessionMatches (uid : String) (q : FilterArgs) (s : Session) : Bool :=
  s.user_id == uid && filterClauses q s

/-- One record of the detailed `sessions` array of `/api/stats/filtered`. -/
def toDetailed (studios : List Studio) (s : Session) : DetailedOut :=
  let studio := lookupStudio studios s.studio_id
  ⟨s.id, s.date, s.time,
   (match studio with | some t => t.name | none => "Unknown"),
   s.coach_name, s.session_type, s.attendees.length, s.capacity,
   paymentOrZero s.attendees.length studio, s.paid⟩

/-- Loop accumulator of `/api/stats/filtered`. -/
structure FoldAcc where
  totalAttendees : Nat
  paidRevenue : ℚ
  pendingRevenue : ℚ
  groupSessions : Nat
  individualSessions : Nat
  detailed : List DetailedOut

/-- Loop body of `/api/stats/filtered`. -/
def filteredStep (studios : List Studio) (acc : FoldAcc) (s : Session) : FoldAcc :=
  let payment := paymentOf studios s
  { totalAttendees := acc.totalAttendees + s.attendees.length
    paidRevenue := if s.paid then acc.paidRevenue + payment else acc.paidRevenue
    pendingRevenue := if s.paid then acc.pendingRevenue else acc.pendingRevenue + payment
    groupSessions :=
      if s.session_type.toLower == "group" then acc.groupSessions + 1
      else acc.groupSessions
    individualSessions :=
      if s.session_type.toLower == "group" then acc.individualSessions
      else acc.individualSessions + 1
    detailed := acc.detailed ++ [toDetailed studios s] }

/-- `GET /api/stats/filtered`. -/
def get_filtered_stats (uid : String) (q : FilterArgs) (st : Store) :
    FilteredStatsOut :=
  let sessions := st.sessions.filter (sessionMatches uid q)
  let studios := studiosFor uid st
  let a := sessions.foldl (filteredStep studios) ⟨0, 0, 0, 0, 0, []⟩
  ⟨sessions.length, a.totalAttendees, a.paidRevenue, a.pendingRevenue,
   a.groupSessions, a.individualSessions, a.detailed⟩

/-- The API surface as a single type of operations, for theorems that
quantify over every endpoint. -/
inductive ApiOp where
  | getStudios
  | addStudio (d : StudioData)
  | deleteStudio (i : Nat)
  | updateStudio (i : Nat) (d : StudioData)
  | getSessions
  | addSession (d : SessionData)
  | deleteSession (i : Nat)
  | updateSession (i : Nat) (d : SessionData)
  | addAttendee (i : Nat) (name : String)
  | removeAttendee (i : Nat) (name : String)
  | markPaid (i : Nat)
  | getStats
  | getFilteredStats (q : FilterArgs)
deriving DecidableEq

/-- Dispatch an operation under a tenant key. -/
def runOp : ApiOp → String → Store → Response × Store
  | .getStudios, uid, st => (.studios (get_studios uid st), st)
  | .addStudio d, uid, st =>
    let r := add_studio uid d st
    (.studio r.1, r.2)
  | .deleteStudio i, uid, st => delete_studio uid i st
  | .updateStudio i d, uid, st => update_studio uid i d st
  | .getSessions, uid, st => (.sessionList (get_sessions uid st), st)
  | .addSession d, uid, st => add_session uid d st
  | .deleteSession i, uid, st => delete_session uid i st
  | .updateSession i d, uid, st => update_session uid i d st
  | .addAttendee i n, uid, st => add_attendee uid i n st
  | .removeAttendee i n, uid, st => remove_attendee uid i n st
  | .markPaid i, uid, st => mark_session_paid uid i st
  | .getStats, uid, st => (.stats (get_stats uid st), st)
  | .getFilteredStats q, uid, st => (.filteredStats (get_filtered_stats uid q st), st)

/-- Whether the operation inserts a fresh row (and hence consumes an id from
the shared AUTOINCREMENT sequence). -/
def ApiOp.isCreate : ApiOp → Bool
  | .addStudio _ => true
  | .addSession _ => true
  | _ => false

/-- The id the operation looks up before doing anything, when there is one:
`some (true, i)` for a studio id, `some (false, i)` for a session id. -/
def ApiOp.lookupTarget : ApiOp → Option (Bool × Nat)
  | .deleteStudio i => some (true, i)
  | .updateStudio i _ => some (true, i)
  | .addSession d => some (true, d.studioId)
  | .deleteSession i => some (false, i)
  | .updateSession i _ => some (false, i)
  | .addAttendee i _ => some (false, i)
  | .removeAttendee i _ => some (false, i)
  | .markPaid i => some (false, i)
  | _ => none

/-- Whether the operation is the session PUT (the one endpoint that can
shrink `capacity` under an existing attendee list). -/
def ApiOp.isUpdateSession : ApiOp → Bool
  | .updateSession _ _ => true
  | _ => false

/-- Side condition for the capacity invariant: a freshly created session must
not declare a negative capacity. -/
def ApiOp.capacityOk : ApiOp → Prop
  | .addSession d => 0 ≤ d.capacity
  | _ => True

/-- The entities a tenant owns, in table order. -/
def projT (uid : String) (st : Store) : List Studio × List Session :=
  (studiosFor uid st, sessionsFor uid st)

/-- The entities every other tenant owns, in table order. -/
def othersOf (uid : String) (st : Store) : List Studio × List Session :=
  (st.studios.filter (fun s => !(s.user_id == uid)),
   st.sessions.filter (fun s => !(s.user_id == uid)))

/-- Run a whole trace of operations, each under its own tenant key. -/
def runOps (ops : List (ApiOp × String)) (st : Store) : Store :=
  ops.foldl (fun st p => (runOp p.1 p.2 st).2) st

/-- Capacity invariant of the spec: no stored session overbooks. -/
def capInvariant (st : Store) : Prop :=
  ∀ s ∈ st.sessions, (s.attendees.length : Int) ≤ s.capacity

/-- `(id, user_id)` is a key of the sessions table (true of every reachable
store, since ids come from the counter). -/
def uniqueKeys (st : Store) : Prop :=
  ∀ s ∈ st.sessions, ∀ t ∈ st.sessions, s.id = t.id → s.user_id = t.user_id → s = t

/-- All session ids are below the id counter. -/
def idsBounded (st : Store) : Prop :=
  ∀ s ∈ st.sessions, s.id < st.nextSessionId

/-- Conjunction of the structural store invariants used for preservation. -/
def storeInv (st : Store) : Prop :=
  capInvariant st ∧ uniqueKeys st ∧ idsBounded st

/-! ## Generic list lemmas -/

theorem paymentOrZero_eq (n : Int) (o : Option Studio) :
    paymentOrZero n o = calculate_payment n o := by
  cases o <;> rfl

theorem find?_and_filter {α : Type} (p q : α → Bool) (l : List α) :
    l.find? (fun a => p a && q a) = (l.filter q).find? p := by
  induction l with
  | nil => rfl
  | cons a t ih =>
    cases hq : q a <;> cases hp : p a <;>
      simp [List.find?_cons, List.filter_cons, hq, hp, ih]

theorem filter_and_split {α : Type} (p q : α → Bool) (l : List α) :
    l.filter (fun a => p a && q a) = (l.filter q).filter p := by
  induction l with
  | nil => rfl
  | cons a t ih =>
    simp only [List.filter_cons]
    cases hq : q a <;> cases hp : p a <;> rw [ih] <;> simp [List.filter_cons, hp]

theorem filter_map_of_pres {α : Type} (g : α → α) (q : α → Bool)
    (hg : ∀ a, q (g a) = q a) (l : List α) :
    (l.map g).filter q = (l.filter q).map g := by
  induction l with
  | nil => rfl
  | cons a t ih =>
    cases hq : q a <;> simp [List.filter_cons, hg, hq, ih]

theorem filter_map_of_fix {α : Type} (g : α → α) (q : α → Bool)
    (hfix : ∀ a, q a = false → g a = a) (hg : ∀ a, q (g a) = q a) (l : List α) :
    (l.map g).filter (fun a => !(q a)) = l.filter (fun a => !(q a)) := by
  induction l with
  | nil => rfl
  | cons a t ih =>
    cases hq : q a
    · rw [List.map_cons]
      simp only [List.filter_cons, hg, hq]
      rw [hfix a hq, ih]
    · simp only [List.map_cons, List.filter_cons, hg, hq]
      simpa using ih

theorem filter_filter_of_imp {α : Type} (m q : α → Bool)
    (him : ∀ a, m a = true → q a = true) (l : List α) :
    (l.filter (fun a => !(m a))).filter (fun a => !(q a)) =
      l.filter (fun a => !(q a)) := by
  induction l with
  | nil => rfl
  | cons a t ih =>
    cases hm : m a
    · simp [List.filter_cons, hm, ih]
    · have hq := him a hm
      simp [List.filter_cons, hm, hq, ih]

theorem filter_comm' {α : Type} (p q : α → Bool) (l : List α) :
    (l.filter p).filter q = (l.filter q).filter p := by
  induction l with
  | nil => rfl
  | cons a t ih =>
    cases hq : q a <;> cases hp : p a <;>
      simp [List.filter_cons, hq, hp, ih]

theorem filter_append_single {α : Type} (q : α → Bool) (l : List α) (a : α) :
    (l ++ [a]).filter q = l.filter q ++ (if q a then [a] else []) := by
  cases ha : q a <;> simp [List.filter_append, List.filter_cons, ha]

/-! ## Closed forms of the two statistics folds -/

theorem statsFold_closed (studios : List Studio) (l : List Session) (a : Nat × ℚ × ℚ) :
    l.foldl (statsStep studios) a =
      (a.1 + (l.map (fun s => s.attendees.length)).sum,
       a.2.1 + ((l.filter (fun s => s.paid)).map (paymentOf studios)).sum,
       a.2.2 + ((l.filter (fun s => !s.paid)).map (paymentOf studios)).sum) := by
  induction l generalizing a with
  | nil => simp
  | cons s t ih =>
    rw [List.foldl_cons, ih]
    cases hp : s.paid <;>
      simp [statsStep, hp, List.filter_cons, Prod.ext_iff, Nat.add_assoc, add_assoc]

theorem get_stats_closed (uid : String) (st : Store) :
    get_stats uid st =
      ⟨(sessionsFor uid st).length,
       ((sessionsFor uid st).map (fun s => s.attendees.length)).sum,
       (((sessionsFor uid st).filter (fun s => s.paid)).map
          (paymentOf (studiosFor uid st))).sum,
       (((sessionsFor uid st).filter (fun s => !s.paid)).map
          (paymentOf (studiosFor uid st))).sum⟩ := by
  simp only [get_stats]
  rw [statsFold_closed]
  simp

theorem filteredFold_closed (studios : List Studio) (l : List Session) (a : FoldAcc) :
    l.foldl (filteredStep studios) a =
      ⟨a.totalAttendees + (l.map (fun s => s.attendees.length)).sum,
       a.paidRevenue + ((l.filter (fun s => s.paid)).map (paymentOf studios)).sum,
       a.pendingRevenue + ((l.filter (fun s => !s.paid)).map (paymentOf studios)).sum,
       a.groupSessions + (l.filter (fun s => s.session_type.toLower == "group")).length,
       a.individualSessions +
         (l.filter (fun s => !(s.session_type.toLower == "group"))).length,
       a.detailed ++ l.map (toDetailed studios)⟩ := by
  induction l generalizing a with
  | nil => simp
  | cons s t ih =>
    rw [List.foldl_cons, ih]
    cases hp : s.paid <;> cases hg : s.session_type.toLower == "group" <;>
      simp [filteredStep, hp, hg, List.filter_cons, FoldAcc.mk.injEq,
        Nat.add_assoc, add_assoc] <;> omega

theorem get_filtered_stats_closed (uid : String) (q : FilterArgs) (st : Store) :
    get_filtered_stats uid q st =
      ⟨(st.sessions.filter (sessionMatches uid q)).length,
       ((st.sessions.filter (sessionMatches uid q)).map
          (fun s => s.attendees.length)).sum,
       (((st.sessions.filter (sessionMatches uid q)).filter (fun s => s.paid)).map
          (paymentOf (studiosFor uid st))).sum,
       (((st.sessions.filter (sessionMatches uid q)).filter (fun s => !s.paid)).map
          (paymentOf (studiosFor uid st))).sum,
       ((st.sessions.filter (sessionMatches uid q)).filter
          (fun s => s.session_type.toLower == "group")).length,
       ((st.sessions.filter (sessionMatches uid q)).filter
          (fun s => !(s.session_type.toLower == "group"))).length,
       (st.sessions.filter (sessionMatches uid q)).map
          (toDetailed (studiosFor uid st))⟩ := by
  simp only [get_filtered_stats]
  rw [filteredFold_closed]
  simp

/-! ## Frame lemmas for the session UPDATE -/

theorem map_ite_id {α : Type} (q : α → Bool) (f : α → α) (l : List α)
    (h : ∀ a ∈ l, q a = false) :
    l.map (fun a => if q a then f a else a) = l := by
  induction l with
  | nil => rfl
  | cons a t ih =>
    have ha := h a (List.mem_cons_self a t)
    simp only [List.map_cons, ha, if_neg Bool.false_ne_true]
    rw [ih (fun b hb => h b (List.mem_cons_of_mem a hb))]

theorem map_proj_of_pres {α β : Type} (g : α → α) (f : α → β)
    (h : ∀ a, f (g a) = f a) (l : List α) :
    (l.map g).map f = l.map f := by
  induction l with
  | nil => rfl
  | cons a t ih => simp [h, ih]

/-- The store after `update_session`: the matching row gets the seven mutable
fields replaced, every other row and the studios table are untouched (when the
row does not resolve nothing matches, so the map is the identity). -/
theorem update_session_post (uid : String) (i : Nat) (d : SessionData) (st : Store) :
    (update_session uid i d st).2 =
      { st with sessions := st.sessions.map (fun s =>
          if s.id == i && s.user_id == uid then updateFields d s else s) } := by
  unfold update_session
  cases hf : findSession uid i st with
  | none =>
    simp only [hf]
    have hnone := List.find?_eq_none.mp hf
    have : st.sessions.map (fun s =>
        if s.id == i && s.user_id == uid then updateFields d s else s) = st.sessions := by
      apply map_ite_id
      intro a ha
      exact Bool.not_eq_true _ ▸ (by simpa using hnone a ha)
    rw [this]
  | some s =>
    simp only [hf]
    cases hf2 : findSession uid i { st with sessions := st.sessions.map (fun s =>
        if s.id == i && s.user_id == uid then updateFields d s else s) } <;>
      simp only [hf2]

/-- Claim C10: the session-update endpoint replaces only `studio_id`, `date`,
`time`, `duration`, `capacity`, `coach_name` and `session_type` of the
addressed session; the stored attendee lists and paid flags of every session,
all studios, and both id counters are unchanged. -/
theorem update_session_frame (uid : String) (i : Nat) (d : SessionData) (st : Store) :
    (update_session uid i d st).2.studios = st.studios ∧
    (update_session uid i d st).2.sessions = st.sessions.map (fun s =>
       if s.id == i && s.user_id == uid then updateFields d s else s) ∧
    (update_session uid i d st).2.sessions.map (fun s => s.attendees) =
      st.sessions.map (fun s => s.attendees) ∧
    (update_session uid i d st).2.sessions.map (fun s => s.paid) =
      st.sessions.map (fun s => s.paid) ∧
    (update_session uid i d st).2.nextStudioId = st.nextStudioId ∧
    (update_session uid i d st).2.nextSessionId = st.nextSessionId := by
  rw [update_session_post]
  refine ⟨rfl, rfl, ?_, ?_, rfl, rfl⟩
  · apply map_proj_of_pres
    intro a
    by_cases hc : (a.id == i && a.user_id == uid) = true <;> simp [hc, updateFields]
  · apply map_proj_of_pres
    intro a
    by_cases hc : (a.id == i && a.user_id == uid) = true <;> simp [hc, updateFields]

/-- Claim C2 (amended): for every studio — negative-rate ones included —
`calculate_payment` equals
`minimum_payment + max 0 (n - start_count_from) * payment_per_client` and is
exactly `minimum_payment` at the threshold; and it is non-decreasing in the
attendee count whenever the per-client rate is non-negative (the API accepts
arbitrary rates, so a negative rate makes it strictly decreasing past the
threshold). -/
theorem group_payment_variantB (S : Studio) (m n k : Int) :
    (0 ≤ S.payment_per_client → m ≤ n →
      calculate_payment m (some S) ≤ calculate_payment n (some S)) ∧
    calculate_payment S.start_count_from (some S) = S.minimum_payment ∧
    calculate_payment k (some S) =
      S.minimum_payment +
        ((max 0 (k - S.start_count_from) : Int) : ℚ) * S.payment_per_client := by
  have hform : ∀ j : Int, calculate_payment j (some S) =
      S.minimum_payment +
        ((max 0 (j - S.start_count_from) : Int) : ℚ) * S.payment_per_client := by
    intro j
    simp only [calculate_payment]
    by_cases hj : j > S.start_count_from
    · rw [if_pos hj]
      have : max 0 (j - S.start_count_from) = j - S.start_count_from := by omega
      rw [this]
    · rw [if_neg hj]
      have : max 0 (j - S.start_count_from) = 0 := by omega
      rw [this]
      push_cast
      ring
  refine ⟨?_, ?_, hform k⟩
  · intro hr hmn
    rw [hform m, hform n]
    have h1 : max 0 (m - S.start_count_from) ≤ max 0 (n - S.start_count_from) := by omega
    have h2 : ((max 0 (m - S.start_count_from) : Int) : ℚ) ≤
        ((max 0 (n - S.start_count_from) : Int) : ℚ) := by exact_mod_cast h1
    nlinarith
  · rw [hform S.start_count_from]
    simp

/-- Studio with a negative per-client rate (nothing in the API validates
rates), for the counterexample to unconditional monotonicity. -/
def cex2studio : Studio := ⟨1, "tg_1", "Studio Neg", -1, 5, 0, 0, "#FF6B6B"⟩

/-- Claim C2 counterexample: the group payment is not non-decreasing in the
attendee count for every studio — with `payment_per_client = -1`,
`minimum_payment = 5` and `start_count_from = 0` the payment drops from 5 at
0 attendees to 4 at 1 attendee. -/
theorem group_payment_not_monotone_cex :
    (0 : Int) ≤ 1 ∧
    ¬ (calculate_payment 0 (some cex2studio) ≤ calculate_payment 1 (some cex2studio)) := by
  constructor
  · norm_num
  · norm_num [calculate_payment, cex2studio]

/-- Studio with a non-negative rate used to instantiate `group_payment_variantB`. -/
def wit2studio : Studio := ⟨1, "tg_1", "Studio Pos", 2, 10, 1, 0, "#FF6B6B"⟩

/-- Claim C2 witness: `group_payment_variantB` instantiated at a concrete
studio and concrete attendee counts, with the non-negative-rate and
count-ordering hypotheses of the monotonicity conjunct discharged there. -/
theorem group_payment_variantB_witness :
    (calculate_payment 1 (some wit2studio) ≤ calculate_payment 3 (some wit2studio)) ∧
    calculate_payment wit2studio.start_count_from (some wit2studio) =
      wit2studio.minimum_payment ∧
    calculate_payment 2 (some wit2studio) =
      wit2studio.minimum_payment +
        ((max 0 (2 - wit2studio.start_count_from) : Int) : ℚ) *
          wit2studio.payment_per_client :=
  ⟨(group_payment_variantB wit2studio 1 3 2).1 (by norm_num [wit2studio]) (by norm_num),
   (group_payment_variantB wit2studio 1 3 2).2.1,
   (group_payment_variantB wit2studio 1 3 2).2.2⟩

/-- Studio whose individual flat rate (7) differs from its group minimum (25). -/
def bug1studio : Studio := ⟨1, "tg_1", "Flex", 10, 25, 1, 7, "#FF6B6B"⟩

/-- An `Individual`-type session of that studio with no attendees. -/
def bug1session : Session :=
  ⟨1, "tg_1", 1, "2024-01-01", "09:00", 60, 5, "Anna", "Individual", false, [], 0⟩

/-- Store holding exactly that studio and session. -/
def bug1store : Store := ⟨[bug1studio], [bug1session], 2, 2⟩

/-- Claim C1: `calculate_payment` takes no session type at all and no caller
branches on it, so an `Individual` session is billed by the group formula —
here the derived payment is the group minimum 25, not the studio's
`payment_individual` of 7, in both the stats aggregate and the session
listing. -/
theorem individual_rate_ignored :
    bug1session.session_type = "Individual" ∧
    bug1studio.payment_individual = 7 ∧
    calculate_payment 0 (some bug1studio) = 25 ∧
    get_stats "tg_1" bug1store = ⟨1, 0, 0, 25⟩ ∧
    (get_sessions "tg_1" bug1store).map (fun r => r.payment) = [25] ∧
    (25 : ℚ) ≠ 7 := by
  refine ⟨rfl, rfl, ?_, ?_, ?_, by norm_num⟩
  · norm_num [calculate_payment, bug1studio]
  · norm_num [get_stats, sessionsFor, studiosFor, statsStep, paymentOf, paymentOrZero,
      lookupStudio, calculate_payment, bug1store, bug1studio, bug1session]
  · norm_num [get_sessions, sessionsFor, studiosFor, toSessionOut, paymentOf,
      paymentOrZero, lookupStudio, calculate_payment, bug1store, bug1studio, bug1session]

/-- Studio for the concrete aggregation example (rate 5, minimum 10,
threshold 1). -/
def ex4studio : Studio := ⟨1, "tg_1", "Flex", 5, 10, 1, 0, "#FF6B6B"⟩

/-- A paid session whose derived payment is 10. -/
def ex4paid : Session :=
  ⟨1, "tg_1", 1, "2024-01-01", "09:00", 60, 5, "Anna", "Group", true, [], 0⟩

/-- An unpaid session with 4 attendees whose derived payment is 25. -/
def ex4pending : Session :=
  ⟨2, "tg_1", 1, "2024-01-02", "08:00", 60, 5, "Anna", "Group", false,
   ["a", "b", "c", "d"], 0⟩

/-- Store holding that studio and those two sessions. -/
def ex4store : Store := ⟨[ex4studio], [ex4paid, ex4pending], 2, 3⟩

/-- Claim C4: both aggregators return exactly the session count, the sum of
attendee-list lengths, the sum of derived payments over paid sessions and the
sum over unpaid ones; in particular the `{paid 10, pending 25}` store yields
`paidRevenue = 10`, `pendingRevenue = 25`, `totalSessions = 2`. -/
theorem stats_aggregation_exact (uid : String) (q : FilterArgs) (st : Store) :
    get_stats uid st =
      ⟨(sessionsFor uid st).length,
       ((sessionsFor uid st).map (fun s => s.attendees.length)).sum,
       (((sessionsFor uid st).filter (fun s => s.paid)).map
          (paymentOf (studiosFor uid st))).sum,
       (((sessionsFor uid st).filter (fun s => !s.paid)).map
          (paymentOf (studiosFor uid st))).sum⟩ ∧
    (get_filtered_stats uid q st).totalSessions =
      (st.sessions.filter (sessionMatches uid q)).length ∧
    (get_filtered_stats uid q st).totalAttendees =
      ((st.sessions.filter (sessionMatches uid q)).map
        (fun s => s.attendees.length)).sum ∧
    (get_filtered_stats uid q st).paidRevenue =
      (((st.sessions.filter (sessionMatches uid q)).filter (fun s => s.paid)).map
        (paymentOf (studiosFor uid st))).sum ∧
    (get_filtered_stats uid q st).pendingRevenue =
      (((st.sessions.filter (sessionMatches uid q)).filter (fun s => !s.paid)).map
        (paymentOf (studiosFor uid st))).sum ∧
    get_stats "tg_1" ex4store = ⟨2, 4, 10, 25⟩ := by
  refine ⟨get_stats_closed uid st, ?_, ?_, ?_, ?_, ?_⟩
  · rw [get_filtered_stats_closed]
  · rw [get_filtered_stats_closed]
  · rw [get_filtered_stats_closed]
  · rw [get_filtered_stats_closed]
  · norm_num [get_stats, sessionsFor, studiosFor, statsStep, paymentOf, paymentOrZero,
      lookupStudio, calculate_payment, ex4store, ex4studio, ex4paid, ex4pending]

/-- Claim C9 (amended): the detailed records of `/api/stats/filtered` come
back exactly in storage (insertion) order of the sessions table — the query
has no ORDER BY — not sorted by `(date, time)`. -/
theorem detailed_order_storage (uid : String) (q : FilterArgs) (st : Store) :
    (get_filtered_stats uid q st).sessions =
      (st.sessions.filter (sessionMatches uid q)).map (toDetailed (studiosFor uid st)) := by
  rw [get_filtered_stats_closed]

/-- Studio for the ordering counterexample. -/
def cex9studio : Studio := ⟨1, "tg_1", "Flex", 10, 25, 1, 7, "#FF6B6B"⟩

/-- Session dated `(2024-01-01, 09:00)`, inserted first. -/
def cex9early : Session :=
  ⟨1, "tg_1", 1, "2024-01-01", "09:00", 60, 5, "Anna", "Group", false, [], 0⟩

/-- Session dated `(2024-01-02, 08:00)`, inserted second. -/
def cex9late : Session :=
  ⟨2, "tg_1", 1, "2024-01-02", "08:00", 60, 5, "Anna", "Group", false, [], 0⟩

/-- Store with the two sessions in insertion order. -/
def cex9store : Store := ⟨[cex9studio], [cex9early, cex9late], 2, 3⟩

/-- Claim C9 counterexample: with sessions dated `(2024-01-01, 09:00)` and
`(2024-01-02, 08:00)`, the detailed records come back with the *earlier* date
first — the later date `2024-01-02` is not first, so the output is not
sorted by `(date, time)` descending. -/
theorem detailed_order_not_sorted_cex :
    ((get_filtered_stats "tg_1" ⟨none, none, none⟩ cex9store).sessions.map
        (fun r => (r.date, r.time))) =
      [("2024-01-01", "09:00"), ("2024-01-02", "08:00")] ∧
    "2024-01-01" < "2024-01-02" := by
  constructor
  · norm_num [get_filtered_stats, sessionsFor, studiosFor, sessionMatches, filterClauses,
      filteredStep, toDetailed, paymentOf, paymentOrZero, lookupStudio, calculate_payment,
      cex9store, cex9studio, cex9early, cex9late]
  · rw [String.lt_iff_toList_lt]
    decide

/-- Claim C6: adding an attendee whose name is already present, or removing
one whose name is absent, leaves the store untouched and returns exactly the
pre-call attendee list and pre-call derived payment. -/
theorem attendee_ops_idempotent (uid nameIn nameOut : String) (i : Nat)
    (st : Store) (s : Session)
    (hf : findSession uid i st = some s)
    (hin : nameIn ∈ s.attendees) (hout : nameOut ∉ s.attendees) :
    add_attendee uid i nameIn st =
      (.attendeesPayment s.attendees
        (paymentOrZero s.attendees.length (findStudio uid s.studio_id st)), st) ∧
    remove_attendee uid i nameOut st =
      (.attendeesPayment s.attendees
        (paymentOrZero s.attendees.length (findStudio uid s.studio_id st)), st) := by
  constructor
  · unfold add_attendee
    simp only [hf]
    rw [if_neg (by simp [hin])]
    simp only [hf]
  · unfold remove_attendee
    simp only [hf]
    rw [if_neg hout]
    simp only [hf]

/-- Studio used by the C6 witness store. -/
def wit6studio : Studio := ⟨1, "tg_1", "Flex", 10, 25, 1, 0, "#FF6B6B"⟩

/-- Session with attendee list `["x"]` used by the C6 witness store. -/
def wit6session : Session :=
  ⟨1, "tg_1", 1, "2024-01-01", "09:00", 60, 5, "Anna", "Group", false, ["x"], 0⟩

/-- The C6 witness store. -/
def wit6store : Store := ⟨[wit6studio], [wit6session], 2, 2⟩

/-- Claim C6 witness: `attendee_ops_idempotent` instantiated at the concrete
store — re-adding `"x"` and removing the absent `"y"` both leave everything
unchanged. -/
theorem attendee_ops_idempotent_witness :
    add_attendee "tg_1" 1 "x" wit6store =
      (.attendeesPayment wit6session.attendees
        (paymentOrZero wit6session.attendees.length
          (findStudio "tg_1" wit6session.studio_id wit6store)), wit6store) ∧
    remove_attendee "tg_1" 1 "y" wit6store =
      (.attendeesPayment wit6session.attendees
        (paymentOrZero wit6session.attendees.length
          (findStudio "tg_1" wit6session.studio_id wit6store)), wit6store) :=
  attendee_ops_idempotent "tg_1" "x" "y" 1 wit6store wit6session (by rfl)
    (by decide) (by decide)

/-- Claim C7: deleting a studio referenced by at least one same-tenant
session fails with the 400 conflict error and leaves the store unchanged;
deleting an unreferenced studio succeeds and thereafter the studio no longer
resolves under that tenant — a repeated delete, an update, and a session
creation naming it all yield the 404 not-found error. -/
theorem delete_studio_guard (uid : String) (i : Nat) (d : StudioData) (sd : SessionData)
    (st : Store) (s : Studio)
    (hf : findStudio uid i st = some s) (hsd : sd.studioId = i) :
    (0 < (st.sessions.filter (fun t => t.studio_id == i && t.user_id == uid)).length →
       delete_studio uid i st =
         (.error 400 ("Cannot delete studio. It has " ++
            toString (st.sessions.filter
              (fun t => t.studio_id == i && t.user_id == uid)).length ++
            " training session(s) associated with it."), st)) ∧
    ((st.sessions.filter (fun t => t.studio_id == i && t.user_id == uid)).length = 0 →
       (delete_studio uid i st).1 = .successMsg "Studio deleted successfully" ∧
       findStudio uid i (delete_studio uid i st).2 = none ∧
       delete_studio uid i (delete_studio uid i st).2 =
         (.error 404 "Studio not found", (delete_studio uid i st).2) ∧
       update_studio uid i d (delete_studio uid i st).2 =
         (.error 404 "Studio not found", (delete_studio uid i st).2) ∧
       add_session uid sd (delete_studio uid i st).2 =
         (.error 404 "Studio not found", (delete_studio uid i st).2)) := by
  constructor
  · intro hpos
    unfold delete_studio
    simp only [hf]
    rw [if_pos hpos]
  · intro hzero
    have hdel : delete_studio uid i st =
        (.successMsg "Studio deleted successfully",
         { st with
            studios := st.studios.filter (fun t => !(t.id == i && t.user_id == uid)) }) := by
      unfold delete_studio
      simp only [hf]
      rw [if_neg (by omega)]
    have hfind : findStudio uid i (delete_studio uid i st).2 = none := by
      rw [hdel]
      unfold findStudio
      rw [List.find?_eq_none]
      intro a ha
      have := (List.mem_filter.mp ha).2
      simp only [Bool.not_eq_true'] at this
      simp [this]
    have hfindR : findStudio uid i
        { st with
          studios := st.studios.filter (fun t => !(t.id == i && t.user_id == uid)) } = none := by
      rw [hdel] at hfind
      exact hfind
    refine ⟨by rw [hdel], hfind, ?_, ?_, ?_⟩
    · rw [hdel]
      simp only [delete_studio, hfindR]
    · rw [hdel]
      simp only [update_studio, hfindR]
    · rw [hdel]
      simp only [add_session, hsd, hfindR]

/-- Studio used by the C7 witness stores. -/
def wit7studio : Studio := ⟨1, "tg_1", "Flex", 10, 25, 1, 0, "#FF6B6B"⟩

/-- Session referencing studio 1, for the conflict branch. -/
def wit7sess : Session :=
  ⟨1, "tg_1", 1, "2024-01-01", "09:00", 60, 5, "Anna", "Group", false, [], 0⟩

/-- Store where studio 1 has one referencing session. -/
def wit7busy : Store := ⟨[wit7studio], [wit7sess], 2, 2⟩

/-- Store where studio 1 has no referencing session. -/
def wit7empty : Store := ⟨[wit7studio], [], 2, 1⟩

/-- Request payloads used by the C7 witness. -/
def wit7d : StudioData := ⟨"Flex2", 1, 2, 3, 4, "#000000"⟩

/-- Session payload naming studio 1, used by the C7 witness. -/
def wit7sd : SessionData := ⟨1, "2024-01-01", "09:00", 60, 5, "Anna", "Group"⟩

/-- Claim C7 witness: `delete_studio_guard` applied at a store with one
referencing session (conflict branch) and at a store with none (success
branch and subsequent 404s). -/
theorem delete_studio_guard_witness :
    delete_studio "tg_1" 1 wit7busy =
      (.error 400 ("Cannot delete studio. It has " ++
         toString (wit7busy.sessions.filter
           (fun t => t.studio_id == 1 && t.user_id == "tg_1")).length ++
         " training session(s) associated with it."), wit7busy) ∧
    ((delete_studio "tg_1" 1 wit7empty).1 = .successMsg "Studio deleted successfully" ∧
     findStudio "tg_1" 1 (delete_studio "tg_1" 1 wit7empty).2 = none ∧
     delete_studio "tg_1" 1 (delete_studio "tg_1" 1 wit7empty).2 =
       (.error 404 "Studio not found", (delete_studio "tg_1" 1 wit7empty).2) ∧
     update_studio "tg_1" 1 wit7d (delete_studio "tg_1" 1 wit7empty).2 =
       (.error 404 "Studio not found", (delete_studio "tg_1" 1 wit7empty).2) ∧
     add_session "tg_1" wit7sd (delete_studio "tg_1" 1 wit7empty).2 =
       (.error 404 "Studio not found", (delete_studio "tg_1" 1 wit7empty).2)) := by
  constructor
  · exact (delete_studio_guard "tg_1" 1 wit7d wit7sd wit7busy wit7studio
      (by rfl) (by rfl)).1 (by decide)
  · exact (delete_studio_guard "tg_1" 1 wit7d wit7sd wit7empty wit7studio
      (by rfl) (by rfl)).2 (by decide)

/-- Claim C8: payment derivation is total — an unresolved studio reference
yields payment 0 (both in `calculate_payment` itself and in the
`if studio else 0` call-site idiom) — and the stats aggregate stays
computable on such inconsistent data: appending a session whose `studio_id`
resolves to nothing adds 1 session and its attendee count but contributes 0
to both revenue totals. -/
theorem payment_defaults_zero (n : Int) (uid : String) (st : Store) (s : Session)
    (huid : s.user_id = uid)
    (hmiss : lookupStudio (studiosFor uid st) s.studio_id = none) :
    calculate_payment n none = 0 ∧
    paymentOrZero n none = 0 ∧
    get_stats uid { st with sessions := st.sessions ++ [s] } =
      ⟨(get_stats uid st).totalSessions + 1,
       (get_stats uid st).totalAttendees + s.attendees.length,
       (get_stats uid st).paidRevenue,
       (get_stats uid st).pendingRevenue⟩ := by
  refine ⟨rfl, rfl, ?_⟩
  have hstud : studiosFor uid { st with sessions := st.sessions ++ [s] } =
      studiosFor uid st := rfl
  have hsess : sessionsFor uid { st with sessions := st.sessions ++ [s] } =
      sessionsFor uid st ++ [s] := by
    unfold sessionsFor
    rw [filter_append_single]
    simp [huid]
  have hpay : paymentOf (studiosFor uid st) s = 0 := by
    unfold paymentOf
    rw [hmiss]
    rfl
  rw [get_stats_closed, get_stats_closed, hstud, hsess]
  cases hp : s.paid <;>
    simp [List.filter_append, List.filter_cons, hp, hpay]

/-- A session referencing the non-existent studio id 99, for the C8 witness. -/
def wit8orphan : Session :=
  ⟨1, "tg_1", 99, "2024-01-01", "09:00", 60, 5, "Anna", "Group", false, ["a", "b"], 0⟩

/-- Claim C8 witness: `payment_defaults_zero` instantiated at the empty store
plus the orphaned session. -/
theorem payment_defaults_zero_witness :
    calculate_payment 5 none = 0 ∧
    paymentOrZero 5 none = 0 ∧
    get_stats "tg_1" { emptyStore with sessions := emptyStore.sessions ++ [wit8orphan] } =
      ⟨(get_stats "tg_1" emptyStore).totalSessions + 1,
       (get_stats "tg_1" emptyStore).totalAttendees + wit8orphan.attendees.length,
       (get_stats "tg_1" emptyStore).paidRevenue,
       (get_stats "tg_1" emptyStore).pendingRevenue⟩ :=
  payment_defaults_zero 5 "tg_1" emptyStore wit8orphan (by rfl) (by rfl)

/-! ## Post-state shapes of each mutating endpoint -/

theorem add_studio_post (uid : String) (d : StudioData) (st : Store) :
    (add_studio uid d st).2 =
      { st with
        studios := st.studios ++ [⟨st.nextStudioId, uid, d.name, d.paymentPerClient,
          d.minimumPayment, d.startCountFrom, d.paymentIndividual, d.color⟩],
        nextStudioId := st.nextStudioId + 1 } := rfl

theorem delete_studio_post_none (uid : String) (i : Nat) (st : Store)
    (hf : findStudio uid i st = none) :
    delete_studio uid i st = (.error 404 "Studio not found", st) := by
  unfold delete_studio
  simp only [hf]

theorem delete_studio_sessions_eq (uid : String) (i : Nat) (st : Store) :
    (delete_studio uid i st).2.sessions = st.sessions ∧
    (delete_studio uid i st).2.nextSessionId = st.nextSessionId := by
  unfold delete_studio
  cases hf : findStudio uid i st with
  | none => exact ⟨rfl, rfl⟩
  | some s =>
    by_cases hcnt :
        0 < (st.sessions.filter (fun t => t.studio_id == i && t.user_id == uid)).length
    · rw [if_pos hcnt]
      exact ⟨rfl, rfl⟩
    · rw [if_neg hcnt]
      exact ⟨rfl, rfl⟩

theorem update_studio_sessions_eq (uid : String) (i : Nat) (d : StudioData) (st : Store) :
    (update_studio uid i d st).2.sessions = st.sessions ∧
    (update_studio uid i d st).2.nextSessionId = st.nextSessionId := by
  unfold update_studio
  cases hf : findStudio uid i st with
  | none => exact ⟨rfl, rfl⟩
  | some s => exact ⟨rfl, rfl⟩

theorem add_session_post_none (uid : String) (d : SessionData) (st : Store)
    (hf : findStudio uid d.studioId st = none) :
    add_session uid d st = (.error 404 "Studio not found", st) := by
  unfold add_session
  simp only [hf]

theorem add_session_post_some (uid : String) (d : SessionData) (st : Store)
    (studio : Studio) (hf : findStudio uid d.studioId st = some studio) :
    (add_session uid d st).2 =
      { st with
        sessions := st.sessions ++ [⟨st.nextSessionId, uid, d.studioId, d.date, d.time,
          d.duration, d.capacity, d.coachName, d.sessionType, false, [], 0⟩],
        nextSessionId := st.nextSessionId + 1 } := by
  unfold add_session
  simp only [hf]

theorem delete_session_post_none (uid : String) (i : Nat) (st : Store)
    (hf : findSession uid i st = none) :
    delete_session uid i st = (.error 404 "Session not found", st) := by
  unfold delete_session
  simp only [hf]

theorem delete_session_post_some (uid : String) (i : Nat) (st : Store)
    (s : Session) (hf : findSession uid i st = some s) :
    delete_session uid i st =
      (.successMsg "Session deleted successfully",
       { st with
         sessions := st.sessions.filter (fun t => !(t.id == i && t.user_id == uid)) }) := by
  unfold delete_session
  simp only [hf]

theorem mark_paid_post_none (uid : String) (i : Nat) (st : Store)
    (hf : findSession uid i st = none) :
    mark_session_paid uid i st = (.error 404 "Session not found", st) := by
  unfold mark_session_paid
  simp only [hf]

theorem mark_paid_post_some (uid : String) (i : Nat) (st : Store)
    (s : Session) (hf : findSession uid i st = some s) :
    mark_session_paid uid i st =
      (.successOnly,
       { st with
         sessions := st.sessions.map (fun t =>
           if t.id == i && t.user_id == uid then { t with paid := true } else t) }) := by
  unfold mark_session_paid
  simp only [hf]

theorem add_attendee_post_none (uid : String) (i : Nat) (name : String) (st : Store)
    (hf : findSession uid i st = none) :
    add_attendee uid i name st = (.error 404 "Session not found", st) := by
  unfold add_attendee
  simp only [hf]

theorem add_attendee_post_skip (uid : String) (i : Nat) (name : String) (st : Store)
    (s : Session) (hf : findSession uid i st = some s)
    (hcond : ¬ (¬ (name ∈ s.attendees) ∧ (s.attendees.length : Int) < s.capacity)) :
    (add_attendee uid i name st).2 = st := by
  unfold add_attendee
  simp only [hf]
  rw [if_neg hcond]
  cases hf2 : findSession uid i st <;> simp only [hf2]

theorem add_attendee_post_upd (uid : String) (i : Nat) (name : String) (st : Store)
    (s : Session) (hf : findSession uid i st = some s)
    (hcond : ¬ (name ∈ s.attendees) ∧ (s.attendees.length : Int) < s.capacity) :
    (add_attendee uid i name st).2 =
      { st with
        sessions := st.sessions.map (fun t =>
          if t.id == i && t.user_id == uid then
            { t with attendees := s.attendees ++ [name] }
          else t) } := by
  unfold add_attendee
  simp only [hf]
  rw [if_pos hcond]
  cases hf2 : findSession uid i { st with
      sessions := st.sessions.map (fun t =>
        if t.id == i && t.user_id == uid then
          { t with attendees := s.attendees ++ [name] }
        else t) } <;> simp only [hf2]

theorem remove_attendee_post_none (uid : String) (i : Nat) (name : String) (st : Store)
    (hf : findSession uid i st = none) :
    remove_attendee uid i name st = (.error 404 "Session not found", st) := by
  unfold remove_attendee
  simp only [hf]

theorem remove_attendee_post_skip (uid : String) (i : Nat) (name : String) (st : Store)
    (s : Session) (hf : findSession uid i st = some s)
    (hcond : ¬ (name ∈ s.attendees)) :
    (remove_attendee uid i name st).2 = st := by
  unfold remove_attendee
  simp only [hf]
  rw [if_neg hcond]
  cases hf2 : findSession uid i st <;> simp only [hf2]

theorem remove_attendee_post_upd (uid : String) (i : Nat) (name : String) (st : Store)
    (s : Session) (hf : findSession uid i st = some s)
    (hcond : name ∈ s.attendees) :
    (remove_attendee uid i name st).2 =
      { st with
        sessions := st.sessions.map (fun t =>
          if t.id == i && t.user_id == uid then
            { t with attendees := s.attendees.erase name }
          else t) } := by
  unfold remove_attendee
  simp only [hf]
  rw [if_pos hcond]
  cases hf2 : findSession uid i { st with
      sessions := st.sessions.map (fun t =>
        if t.id == i && t.user_id == uid then
          { t with attendees := s.attendees.erase name }
        else t) } <;> simp only [hf2]

/-! ## Preservation of the structural store invariants -/

theorem storeInv_of_eq (st post : Store) (hs : post.sessions = st.sessions)
    (hc : post.nextSessionId = st.nextSessionId) (h : storeInv st) : storeInv post := by
  obtain ⟨h1, h2, h3⟩ := h
  refine ⟨?_, ?_, ?_⟩
  · intro s hmem
    rw [hs] at hmem
    exact h1 s hmem
  · intro s hmem t hmem2
    rw [hs] at hmem hmem2
    exact h2 s hmem t hmem2
  · intro s hmem
    rw [hs] at hmem
    rw [hc]
    exact h3 s hmem

theorem storeInv_map_update (st post : Store) (g : Session → Session)
    (hpost : post.sessions = st.sessions.map g)
    (hctr : post.nextSessionId = st.nextSessionId)
    (hid : ∀ s, (g s).id = s.id) (huid : ∀ s, (g s).user_id = s.user_id)
    (hcap : ∀ s ∈ st.sessions, (s.attendees.length : Int) ≤ s.capacity →
      ((g s).attendees.length : Int) ≤ (g s).capacity)
    (h : storeInv st) : storeInv post := by
  obtain ⟨h1, h2, h3⟩ := h
  refine ⟨?_, ?_, ?_⟩
  · intro s hmem
    rw [hpost] at hmem
    obtain ⟨a, ha, rfl⟩ := List.mem_map.mp hmem
    exact hcap a ha (h1 a ha)
  · intro s hmem t hmem2 hideq huideq
    rw [hpost] at hmem hmem2
    obtain ⟨a, ha, rfl⟩ := List.mem_map.mp hmem
    obtain ⟨b, hb, rfl⟩ := List.mem_map.mp hmem2
    have hab : a = b := by
      apply h2 a ha b hb
      · rw [hid a, hid b] at hideq
        exact hideq
      · rw [huid a, huid b] at huideq
        exact huideq
    rw [hab]
  · intro s hmem
    rw [hpost] at hmem
    obtain ⟨a, ha, rfl⟩ := List.mem_map.mp hmem
    rw [hid a, hctr]
    exact h3 a ha

theorem storeInv_filter_sessions (st post : Store) (p : Session → Bool)
    (hpost : post.sessions = st.sessions.filter p)
    (hctr : post.nextSessionId = st.nextSessionId)
    (h : storeInv st) : storeInv post := by
  obtain ⟨h1, h2, h3⟩ := h
  refine ⟨?_, ?_, ?_⟩
  · intro s hmem
    rw [hpost] at hmem
    exact h1 s (List.mem_filter.mp hmem).1
  · intro s hmem t hmem2
    rw [hpost] at hmem hmem2
    exact h2 s (List.mem_filter.mp hmem).1 t (List.mem_filter.mp hmem2).1
  · intro s hmem
    rw [hpost] at hmem
    rw [hctr]
    exact h3 s (List.mem_filter.mp hmem).1

theorem storeInv_append_new (st post : Store) (s : Session)
    (hpost : post.sessions = st.sessions ++ [s])
    (hctr : post.nextSessionId = st.nextSessionId + 1)
    (hsid : s.id = st.nextSessionId)
    (hscap : (s.attendees.length : Int) ≤ s.capacity)
    (h : storeInv st) : storeInv post := by
  obtain ⟨h1, h2, h3⟩ := h
  refine ⟨?_, ?_, ?_⟩
  · intro t hmem
    rw [hpost] at hmem
    rcases List.mem_append.mp hmem with hold | hnew
    · exact h1 t hold
    · rw [List.mem_singleton.mp hnew]
      exact hscap
  · intro a hmem b hmem2 hideq huideq
    rw [hpost] at hmem hmem2
    rcases List.mem_append.mp hmem with ha | ha <;>
      rcases List.mem_append.mp hmem2 with hb | hb
    · exact h2 a ha b hb hideq huideq
    · exfalso
      rw [List.mem_singleton.mp hb, hsid] at hideq
      exact absurd hideq (Nat.ne_of_lt (h3 a ha))
    · exfalso
      rw [List.mem_singleton.mp ha, hsid] at hideq
      exact absurd hideq.symm (Nat.ne_of_lt (h3 b hb))
    · rw [List.mem_singleton.mp ha, List.mem_singleton.mp hb]
  · intro t hmem
    rw [hpost] at hmem
    rw [hctr]
    rcases List.mem_append.mp hmem with hold | hnew
    · exact Nat.lt_succ_of_lt (h3 t hold)
    · rw [List.mem_singleton.mp hnew, hsid]
      exact Nat.lt_succ_self _

theorem storeInv_step (op : ApiOp) (uid : String) (st : Store)
    (hop : op.isUpdateSession = false) (hcap : op.capacityOk) (h : storeInv st) :
    storeInv (runOp op uid st).2 := by
  cases op with
  | getStudios => exact h
  | addStudio d => exact storeInv_of_eq st _ rfl rfl h
  | deleteStudio i =>
    have he := delete_studio_sessions_eq uid i st
    exact storeInv_of_eq st _ he.1 he.2 h
  | updateStudio i d =>
    have he := update_studio_sessions_eq uid i d st
    exact storeInv_of_eq st _ he.1 he.2 h
  | getSessions => exact h
  | addSession d =>
    simp only [runOp]
    cases hf : findStudio uid d.studioId st with
    | none =>
      rw [add_session_post_none uid d st hf]
      exact h
    | some studio =>
      rw [add_session_post_some uid d st studio hf]
      apply storeInv_append_new st _ _ rfl rfl rfl _ h
      simpa using hcap
  | deleteSession i =>
    simp only [runOp]
    cases hf : findSession uid i st with
    | none =>
      rw [delete_session_post_none uid i st hf]
      exact h
    | some s =>
      rw [delete_session_post_some uid i st s hf]
      exact storeInv_filter_sessions st _ _ rfl rfl h
  | updateSession i d => simp [ApiOp.isUpdateSession] at hop
  | addAttendee i name =>
    simp only [runOp]
    cases hf : findSession uid i st with
    | none =>
      rw [add_attendee_post_none uid i name st hf]
      exact h
    | some s0 =>
      by_cases hcnd : ¬ (name ∈ s0.attendees) ∧ (s0.attendees.length : Int) < s0.capacity
      · rw [add_attendee_post_upd uid i name st s0 hf hcnd]
        refine storeInv_map_update st _ _ rfl rfl ?_ ?_ ?_ h
        · intro t
          by_cases hc : (t.id == i && t.user_id == uid) = true <;> simp [hc]
        · intro t
          by_cases hc : (t.id == i && t.user_id == uid) = true <;> simp [hc]
        · intro t ht hinvt
          by_cases hc : (t.id == i && t.user_id == uid) = true
          · have hpred := List.find?_some hf
            have hmem := List.mem_of_find?_eq_some hf
            simp only [Bool.and_eq_true, beq_iff_eq] at hc hpred
            have hteq : t = s0 :=
              h.2.1 t ht s0 hmem (by rw [hc.1, hpred.1]) (by rw [hc.2, hpred.2])
            have hcnd2 := hcnd.2
            simp only [hc.1, hc.2, beq_self_eq_true, Bool.and_self, if_true]
            simp only [List.length_append, List.length_singleton]
            rw [hteq]
            push_cast
            omega
          · simp only [hc, if_false]
            exact hinvt
      · rw [add_attendee_post_skip uid i name st s0 hf hcnd]
        exact h
  | removeAttendee i name =>
    simp only [runOp]
    cases hf : findSession uid i st with
    | none =>
      rw [remove_attendee_post_none uid i name st hf]
      exact h
    | some s0 =>
      by_cases hcnd : name ∈ s0.attendees
      · rw [remove_attendee_post_upd uid i name st s0 hf hcnd]
        refine storeInv_map_update st _ _ rfl rfl ?_ ?_ ?_ h
        · intro t
          by_cases hc : (t.id == i && t.user_id == uid) = true <;> simp [hc]
        · intro t
          by_cases hc : (t.id == i && t.user_id == uid) = true <;> simp [hc]
        · intro t ht hinvt
          by_cases hc : (t.id == i && t.user_id == uid) = true
          · have hpred := List.find?_some hf
            have hmem := List.mem_of_find?_eq_some hf
            simp only [Bool.and_eq_true, beq_iff_eq] at hc hpred
            have hteq : t = s0 :=
              h.2.1 t ht s0 hmem (by rw [hc.1, hpred.1]) (by rw [hc.2, hpred.2])
            have hlen : (s0.attendees.erase name).length ≤ s0.attendees.length :=
              (List.erase_sublist name s0.attendees).length_le
            simp only [hc.1, hc.2, beq_self_eq_true, Bool.and_self, if_true]
            rw [hteq] at hinvt ⊢
            omega
          · simp only [hc, if_false]
            exact hinvt
      · rw [remove_attendee_post_skip uid i name st s0 hf hcnd]
        exact h
  | markPaid i =>
    simp only [runOp]
    cases hf : findSession uid i st with
    | none =>
      rw [mark_paid_post_none uid i st hf]
      exact h
    | some s =>
      rw [mark_paid_post_some uid i st s hf]
      refine storeInv_map_update st _ _ rfl rfl ?_ ?_ ?_ h
      · intro t
        by_cases hc : (t.id == i && t.user_id == uid) = true <;> simp [hc]
      · intro t
        by_cases hc : (t.id == i && t.user_id == uid) = true <;> simp [hc]
      · intro t ht hinvt
        by_cases hc : (t.id == i && t.user_id == uid) = true <;> simp [hc, hinvt]
  | getStats => exact h
  | getFilteredStats q => exact h

/-- Studio payload for the C5 counterexample chain. -/
def cex5d : StudioData := ⟨"Flex", 10, 25, 1, 0, "#FF6B6B"⟩
/-- Session payload with capacity 1. -/
def cex5sd : SessionData := ⟨1, "2024-01-01", "09:00", 60, 1, "Anna", "Group"⟩
/-- The same session payload with capacity shrunk to 0. -/
def cex5shrink : SessionData := ⟨1, "2024-01-01", "09:00", 60, 0, "Anna", "Group"⟩
/-- Store after creating the studio. -/
def cex5st1 : Store := (add_studio "tg_1" cex5d emptyStore).2
/-- ... then the capacity-1 session. -/
def cex5st2 : Store := (add_session "tg_1" cex5sd cex5st1).2
/-- ... then one attendee, filling the session to capacity. -/
def cex5st3 : Store := (add_attendee "tg_1" 1 "x" cex5st2).2
/-- ... then a session update shrinking the capacity to 0 under the
1-element attendee list. -/
def cex5st4 : Store := (update_session "tg_1" 1 cex5shrink cex5st3).2

/-- Claim C5 counterexample: a store reached purely through API operations
satisfies `|attendees| ≤ capacity`, and a single session update (capacity
1 → 0, attendee list left alone) breaks it — the invariant does not survive
every operation sequence. -/
theorem capacity_bound_update_cex :
    capInvariant cex5st3 ∧ ¬ capInvariant cex5st4 := by
  constructor
  · unfold capInvariant
    decide
  · unfold capInvariant
    decide

/-- Claim C5 (amended): adding an attendee to a full session leaves the
store untouched, and `|attendees| ≤ capacity` is preserved by every endpoint
except the session update (which replaces `capacity` without truncating the
attendee list) — both stepwise on any store satisfying the structural
invariants the id allocator guarantees, and along every operation trace from
the empty store that avoids session updates and negative creation
capacities. -/
theorem capacity_bound_amended (uid uidB name : String) (i : Nat)
    (stA stB : Store) (s : Session) (op : ApiOp) (ops : List (ApiOp × String))
    (hf : findSession uid i stA = some s)
    (hfull : (s.attendees.length : Int) = s.capacity)
    (hop : op.isUpdateSession = false) (hcap : op.capacityOk)
    (hinv : storeInv stB)
    (hops : ∀ p ∈ ops, p.1.isUpdateSession = false ∧ p.1.capacityOk) :
    (add_attendee uid i name stA).2 = stA ∧
    storeInv (runOp op uidB stB).2 ∧
    capInvariant (runOps ops emptyStore) := by
  refine ⟨?_, storeInv_step op uidB stB hop hcap hinv, ?_⟩
  · apply add_attendee_post_skip uid i name stA s hf
    rintro ⟨-, hlt⟩
    omega
  · have hstep : ∀ (l : List (ApiOp × String)) (st0 : Store), storeInv st0 →
        (∀ p ∈ l, p.1.isUpdateSession = false ∧ p.1.capacityOk) →
        storeInv (runOps l st0) := by
      intro l
      induction l with
      | nil =>
        intro st0 h0 _
        exact h0
      | cons p t ih =>
        intro st0 h0 hl
        have hp := hl p (List.mem_cons_self p t)
        exact ih _ (storeInv_step p.1 p.2 st0 hp.1 hp.2 h0)
          (fun q hq => hl q (List.mem_cons_of_mem p hq))
    have hempty : storeInv emptyStore := by
      refine ⟨?_, ?_, ?_⟩ <;> intro s hs <;> simp [emptyStore] at hs
    exact (hstep ops emptyStore hempty hops).1

/-- Studio of the C5 witness store. -/
def wit5studio : Studio := ⟨1, "tg_1", "Flex", 10, 25, 1, 0, "#FF6B6B"⟩
/-- A session already at capacity (1 attendee, capacity 1). -/
def wit5full : Session :=
  ⟨1, "tg_1", 1, "2024-01-01", "09:00", 60, 1, "Anna", "Group", false, ["x"], 0⟩
/-- The C5 witness store. -/
def wit5store : Store := ⟨[wit5studio], [wit5full], 2, 2⟩

/-- Claim C5 witness: `capacity_bound_amended` instantiated at the concrete
full session, the mark-paid endpoint, and a one-operation trace. -/
theorem capacity_bound_amended_witness :
    (add_attendee "tg_1" 1 "y" wit5store).2 = wit5store ∧
    storeInv (runOp (.markPaid 1) "tg_1" wit5store).2 ∧
    capInvariant (runOps [(.markPaid 1, "tg_1")] emptyStore) :=
  capacity_bound_amended "tg_1" "tg_1" "y" 1 wit5store wit5store wit5full
    (.markPaid 1) [(.markPaid 1, "tg_1")] (by rfl) (by decide) rfl trivial
    (by
      refine ⟨?_, ?_, ?_⟩
      · unfold capInvariant
        decide
      · unfold uniqueKeys
        decide
      · unfold idsBounded
        decide)
    (by
      intro p hp
      rw [List.mem_singleton] at hp
      subst hp
      exact ⟨rfl, trivial⟩)

/-! ## Tenant projections of queries and post-states -/

theorem projT_fst (uid : String) (st st2 : Store) (h : projT uid st = projT uid st2) :
    studiosFor uid st = studiosFor uid st2 := congrArg Prod.fst h

theorem projT_snd (uid : String) (st st2 : Store) (h : projT uid st = projT uid st2) :
    sessionsFor uid st = sessionsFor uid st2 := congrArg Prod.snd h

theorem findStudio_eq (uid : String) (i : Nat) (st : Store) :
    findStudio uid i st = (studiosFor uid st).find? (fun s => s.id == i) :=
  find?_and_filter _ _ _

theorem findSession_eq (uid : String) (i : Nat) (st : Store) :
    findSession uid i st = (sessionsFor uid st).find? (fun s => s.id == i) :=
  find?_and_filter _ _ _

theorem count_sessions_eq (uid : String) (i : Nat) (st : Store) :
    st.sessions.filter (fun s => s.studio_id == i && s.user_id == uid) =
      (sessionsFor uid st).filter (fun s => s.studio_id == i) :=
  filter_and_split _ _ _

theorem matches_eq (uid : String) (q : FilterArgs) (st : Store) :
    st.sessions.filter (sessionMatches uid q) =
      (sessionsFor uid st).filter (filterClauses q) := by
  show st.sessions.filter (fun s => (s.user_id == uid) && filterClauses q s) = _
  rw [filter_and_split, filter_comm']
  rfl

theorem studiosFor_sessions_set (uid : String) (st : Store) (x : List Session) :
    studiosFor uid { st with sessions := x } = studiosFor uid st := rfl

theorem sessionsFor_studios_set (uid : String) (st : Store) (x : List Studio) :
    sessionsFor uid { st with studios := x } = sessionsFor uid st := rfl

theorem sessionsFor_map (uid : String) (st : Store) (g : Session → Session)
    (hg : ∀ a, ((g a).user_id == uid) = (a.user_id == uid)) :
    sessionsFor uid { st with sessions := st.sessions.map g } =
      (sessionsFor uid st).map g :=
  filter_map_of_pres g _ hg st.sessions

theorem studiosFor_map (uid : String) (st : Store) (g : Studio → Studio)
    (hg : ∀ a, ((g a).user_id == uid) = (a.user_id == uid)) :
    studiosFor uid { st with studios := st.studios.map g } =
      (studiosFor uid st).map g :=
  filter_map_of_pres g _ hg st.studios

theorem sessionsFor_filter (uid : String) (st : Store) (m : Session → Bool) :
    sessionsFor uid { st with sessions := st.sessions.filter (fun s => !(m s)) } =
      (sessionsFor uid st).filter (fun s => !(m s)) :=
  filter_comm' _ _ st.sessions

theorem studiosFor_filter (uid : String) (st : Store) (m : Studio → Bool) :
    studiosFor uid { st with studios := st.studios.filter (fun s => !(m s)) } =
      (studiosFor uid st).filter (fun s => !(m s)) :=
  filter_comm' _ _ st.studios

theorem sessionsFor_append (uid : String) (st : Store) (a : Session) (k : Nat)
    (h : (a.user_id == uid) = true) :
    sessionsFor uid { st with sessions := st.sessions ++ [a], nextSessionId := k } =
      sessionsFor uid st ++ [a] := by
  show (st.sessions ++ [a]).filter _ = _
  rw [filter_append_single]
  rw [if_pos h]
  rfl

theorem studiosFor_append (uid : String) (st : Store) (a : Studio) (k : Nat)
    (h : (a.user_id == uid) = true) :
    studiosFor uid { st with studios := st.studios ++ [a], nextStudioId := k } =
      studiosFor uid st ++ [a] := by
  show (st.studios ++ [a]).filter _ = _
  rw [filter_append_single]
  rw [if_pos h]
  rfl

theorem projT_pair (uid : String) (st : Store) :
    projT uid st = (studiosFor uid st, sessionsFor uid st) := rfl

/-! ## The other-tenants view is never touched -/

theorem othersOf_sessions_map (uid : String) (st : Store) (g : Session → Session)
    (hg : ∀ a, ((g a).user_id == uid) = (a.user_id == uid))
    (hfix : ∀ a, (a.user_id == uid) = false → g a = a) :
    othersOf uid { st with sessions := st.sessions.map g } = othersOf uid st := by
  simp only [othersOf]
  rw [filter_map_of_fix g _ hfix hg]

theorem othersOf_studios_map (uid : String) (st : Store) (g : Studio → Studio)
    (hg : ∀ a, ((g a).user_id == uid) = (a.user_id == uid))
    (hfix : ∀ a, (a.user_id == uid) = false → g a = a) :
    othersOf uid { st with studios := st.studios.map g } = othersOf uid st := by
  simp only [othersOf]
  rw [filter_map_of_fix g _ hfix hg]

theorem othersOf_sessions_filter (uid : String) (st : Store) (m : Session → Bool)
    (him : ∀ a, m a = true → (a.user_id == uid) = true) :
    othersOf uid { st with sessions := st.sessions.filter (fun s => !(m s)) } =
      othersOf uid st := by
  simp only [othersOf]
  rw [filter_filter_of_imp m _ him]

theorem othersOf_studios_filter (uid : String) (st : Store) (m : Studio → Bool)
    (him : ∀ a, m a = true → (a.user_id == uid) = true) :
    othersOf uid { st with studios := st.studios.filter (fun s => !(m s)) } =
      othersOf uid st := by
  simp only [othersOf]
  rw [filter_filter_of_imp m _ him]

theorem othersOf_sessions_append (uid : String) (st : Store) (a : Session) (k : Nat)
    (h : (a.user_id == uid) = true) :
    othersOf uid { st with sessions := st.sessions ++ [a], nextSessionId := k } =
      othersOf uid st := by
  simp only [othersOf]
  rw [filter_append_single]
  simp [h]

theorem othersOf_studios_append (uid : String) (st : Store) (a : Studio) (k : Nat)
    (h : (a.user_id == uid) = true) :
    othersOf uid { st with studios := st.studios ++ [a], nextStudioId := k } =
      othersOf uid st := by
  simp only [othersOf]
  rw [filter_append_single]
  simp [h]

/-! ## Per-endpoint noninterference lemmas -/

theorem get_studios_ni (uid : String) (st st2 : Store)
    (h : projT uid st = projT uid st2) :
    get_studios uid st = get_studios uid st2 := by
  unfold get_studios
  rw [projT_fst uid st st2 h]

theorem add_studio_ni (uid : String) (d : StudioData) (st st2 : Store)
    (h : projT uid st = projT uid st2) (hc : st.nextStudioId = st2.nextStudioId) :
    (add_studio uid d st).1 = (add_studio uid d st2).1 ∧
    projT uid (add_studio uid d st).2 = projT uid (add_studio uid d st2).2 ∧
    othersOf uid (add_studio uid d st).2 = othersOf uid st := by
  refine ⟨?_, ?_, ?_⟩
  · simp only [add_studio]
    rw [hc]
  · have hS := projT_fst uid st st2 h
    have hN := projT_snd uid st st2 h
    simp only [studiosFor] at hS
    simp only [sessionsFor] at hN
    rw [add_studio_post, add_studio_post]
    simp only [projT, studiosFor, sessionsFor]
    rw [filter_append_single, filter_append_single]
    simp only [beq_self_eq_true, if_true]
    rw [hS, hN, hc]
  · rw [add_studio_post]
    simp only [othersOf]
    rw [filter_append_single]
    simp [beq_self_eq_true]

theorem bool_and_right {a b : Bool} (h : (a && b) = true) : b = true := by
  simp only [Bool.and_eq_true] at h
  exact h.2

theorem delete_studio_ni (uid : String) (i : Nat) (st st2 : Store)
    (h : projT uid st = projT uid st2) :
    (delete_studio uid i st).1 = (delete_studio uid i st2).1 ∧
    projT uid (delete_studio uid i st).2 = projT uid (delete_studio uid i st2).2 ∧
    othersOf uid (delete_studio uid i st).2 = othersOf uid st := by
  have hS := projT_fst uid st st2 h
  have hN := projT_snd uid st st2 h
  unfold delete_studio
  rw [findStudio_eq, findStudio_eq, hS]
  cases hf : (studiosFor uid st2).find? (fun s => s.id == i) with
  | none => exact ⟨rfl, h, rfl⟩
  | some s =>
    rw [count_sessions_eq, count_sessions_eq, hN]
    by_cases hcnt : 0 < ((sessionsFor uid st2).filter (fun t => t.studio_id == i)).length
    · rw [if_pos hcnt, if_pos hcnt]
      exact ⟨rfl, h, rfl⟩
    · rw [if_neg hcnt, if_neg hcnt]
      have hS' : st.studios.filter (fun s => s.user_id == uid) =
          st2.studios.filter (fun s => s.user_id == uid) := hS
      have hN' : st.sessions.filter (fun s => s.user_id == uid) =
          st2.sessions.filter (fun s => s.user_id == uid) := hN
      refine ⟨rfl, ?_, ?_⟩
      · simp only [projT, studiosFor, sessionsFor]
        rw [filter_comm' _ _ st.studios, filter_comm' _ _ st2.studios, hS', hN']
      · simp only [othersOf]
        rw [filter_filter_of_imp _ _ (fun a ha => bool_and_right ha)]

theorem update_studio_ni (uid : String) (i : Nat) (d : StudioData) (st st2 : Store)
    (h : projT uid st = projT uid st2) :
    (update_studio uid i d st).1 = (update_studio uid i d st2).1 ∧
    projT uid (update_studio uid i d st).2 = projT uid (update_studio uid i d st2).2 ∧
    othersOf uid (update_studio uid i d st).2 = othersOf uid st := by
  have hS := projT_fst uid st st2 h
  have hN := projT_snd uid st st2 h
  have hS' : st.studios.filter (fun s => s.user_id == uid) =
      st2.studios.filter (fun s => s.user_id == uid) := hS
  have hN' : st.sessions.filter (fun s => s.user_id == uid) =
      st2.sessions.filter (fun s => s.user_id == uid) := hN
  unfold update_studio
  rw [findStudio_eq, findStudio_eq, hS]
  cases hf : (studiosFor uid st2).find? (fun s => s.id == i) with
  | none => exact ⟨rfl, h, rfl⟩
  | some s =>
    have hg : ∀ a : Studio,
        (((fun s : Studio => if s.id == i && s.user_id == uid then
            (⟨s.id, s.user_id, d.name, d.paymentPerClient, d.minimumPayment,
              d.startCountFrom, d.paymentIndividual, d.color⟩ : Studio)
          else s) a).user_id == uid) = (a.user_id == uid) := by
      intro a
      by_cases hc : (a.id == i && a.user_id == uid) = true <;> simp [hc]
    have hfix : ∀ a : Studio, (a.user_id == uid) = false →
        ((fun s : Studio => if s.id == i && s.user_id == uid then
            (⟨s.id, s.user_id, d.name, d.paymentPerClient, d.minimumPayment,
              d.startCountFrom, d.paymentIndividual, d.color⟩ : Studio)
          else s) a) = a := by
      intro a ha
      simp only []
      rw [if_neg]
      intro hc
      rw [bool_and_right hc] at ha
      simp at ha
    refine ⟨rfl, ?_, ?_⟩
    · simp only [projT, studiosFor, sessionsFor]
      rw [filter_map_of_pres _ _ hg, filter_map_of_pres _ _ hg, hS', hN']
    · simp only [othersOf]
      rw [filter_map_of_fix _ _ hfix hg]

theorem get_sessions_ni (uid : String) (st st2 : Store)
    (h : projT uid st = projT uid st2) :
    get_sessions uid st = get_sessions uid st2 := by
  unfold get_sessions
  rw [projT_fst uid st st2 h, projT_snd uid st st2 h]

theorem get_stats_ni (uid : String) (st st2 : Store)
    (h : projT uid st = projT uid st2) :
    get_stats uid st = get_stats uid st2 := by
  unfold get_stats
  rw [projT_fst uid st st2 h, projT_snd uid st st2 h]

theorem get_filtered_stats_ni (uid : String) (q : FilterArgs) (st st2 : Store)
    (h : projT uid st = projT uid st2) :
    get_filtered_stats uid q st = get_filtered_stats uid q st2 := by
  unfold get_filtered_stats
  rw [matches_eq, matches_eq, projT_fst uid st st2 h, projT_snd uid st st2 h]

theorem add_session_ni (uid : String) (d : SessionData) (st st2 : Store)
    (h : projT uid st = projT uid st2) (hc : st.nextSessionId = st2.nextSessionId) :
    (add_session uid d st).1 = (add_session uid d st2).1 ∧
    projT uid (add_session uid d st).2 = projT uid (add_session uid d st2).2 ∧
    othersOf uid (add_session uid d st).2 = othersOf uid st := by
  have hS := projT_fst uid st st2 h
  have hN := projT_snd uid st st2 h
  have hS' : st.studios.filter (fun s => s.user_id == uid) =
      st2.studios.filter (fun s => s.user_id == uid) := hS
  have hN' : st.sessions.filter (fun s => s.user_id == uid) =
      st2.sessions.filter (fun s => s.user_id == uid) := hN
  unfold add_session
  rw [findStudio_eq, findStudio_eq, hS]
  cases hf : (studiosFor uid st2).find? (fun s => s.id == d.studioId) with
  | none => exact ⟨rfl, h, rfl⟩
  | some studio =>
    refine ⟨by rw [hc], ?_, ?_⟩
    · simp only [projT, studiosFor, sessionsFor]
      rw [filter_append_single, filter_append_single]
      simp only [beq_self_eq_true, if_true]
      rw [hS', hN', hc]
    · simp only [othersOf]
      rw [filter_append_single]
      simp

theorem delete_session_ni (uid : String) (i : Nat) (st st2 : Store)
    (h : projT uid st = projT uid st2) :
    (delete_session uid i st).1 = (delete_session uid i st2).1 ∧
    projT uid (delete_session uid i st).2 = projT uid (delete_session uid i st2).2 ∧
    othersOf uid (delete_session uid i st).2 = othersOf uid st := by
  have hS := projT_fst uid st st2 h
  have hN := projT_snd uid st st2 h
  have hS' : st.studios.filter (fun s => s.user_id == uid) =
      st2.studios.filter (fun s => s.user_id == uid) := hS
  have hN' : st.sessions.filter (fun s => s.user_id == uid) =
      st2.sessions.filter (fun s => s.user_id == uid) := hN
  unfold delete_session
  rw [findSession_eq, findSession_eq, hN]
  cases hf : (sessionsFor uid st2).find? (fun s => s.id == i) with
  | none => exact ⟨rfl, h, rfl⟩
  | some s =>
    refine ⟨rfl, ?_, ?_⟩
    · simp only [projT, studiosFor, sessionsFor]
      rw [filter_comm' _ _ st.sessions, filter_comm' _ _ st2.sessions, hS', hN']
    · simp only [othersOf]
      rw [filter_filter_of_imp _ _ (fun a ha => bool_and_right ha)]

theorem mark_paid_ni (uid : String) (i : Nat) (st st2 : Store)
    (h : projT uid st = projT uid st2) :
    (mark_session_paid uid i st).1 = (mark_session_paid uid i st2).1 ∧
    projT uid (mark_session_paid uid i st).2 = projT uid (mark_session_paid uid i st2).2 ∧
    othersOf uid (mark_session_paid uid i st).2 = othersOf uid st := by
  have hS := projT_fst uid st st2 h
  have hN := projT_snd uid st st2 h
  have hS' : st.studios.filter (fun s => s.user_id == uid) =
      st2.studios.filter (fun s => s.user_id == uid) := hS
  have hN' : st.sessions.filter (fun s => s.user_id == uid) =
      st2.sessions.filter (fun s => s.user_id == uid) := hN
  have hg : ∀ a : Session,
      (((fun t : Session => if t.id == i && t.user_id == uid then
          { t with paid := true } else t) a).user_id == uid) = (a.user_id == uid) := by
    intro a
    by_cases hc : (a.id == i && a.user_id == uid) = true <;> simp [hc]
  have hfix : ∀ a : Session, (a.user_id == uid) = false →
      ((fun t : Session => if t.id == i && t.user_id == uid then
          { t with paid := true } else t) a) = a := by
    intro a ha
    simp only []
    rw [if_neg]
    intro hc
    rw [bool_and_right hc] at ha
    simp at ha
  unfold mark_session_paid
  rw [findSession_eq, findSession_eq, hN]
  cases hf : (sessionsFor uid st2).find? (fun s => s.id == i) with
  | none => exact ⟨rfl, h, rfl⟩
  | some s =>
    refine ⟨rfl, ?_, ?_⟩
    · simp only [projT, studiosFor, sessionsFor]
      rw [filter_map_of_pres _ _ hg, filter_map_of_pres _ _ hg, hS', hN']
    · simp only [othersOf]
      rw [filter_map_of_fix _ _ hfix hg]

theorem update_session_ni (uid : String) (i : Nat) (d : SessionData) (st st2 : Store)
    (h : projT uid st = projT uid st2) :
    (update_session uid i d st).1 = (update_session uid i d st2).1 ∧
    projT uid (update_session uid i d st).2 = projT uid (update_session uid i d st2).2 ∧
    othersOf uid (update_session uid i d st).2 = othersOf uid st := by
  have hS := projT_fst uid st st2 h
  have hN := projT_snd uid st st2 h
  have hg : ∀ a : Session,
      (((fun s : Session => if s.id == i && s.user_id == uid then updateFields d s
          else s) a).user_id == uid) = (a.user_id == uid) := by
    intro a
    by_cases hc : (a.id == i && a.user_id == uid) = true <;> simp [hc, updateFields]
  have hfix : ∀ a : Session, (a.user_id == uid) = false →
      ((fun s : Session => if s.id == i && s.user_id == uid then updateFields d s
          else s) a) = a := by
    intro a ha
    simp only []
    rw [if_neg]
    intro hc
    rw [bool_and_right hc] at ha
    simp at ha
  have hsess1 := sessionsFor_map uid st
    (fun s : Session => if s.id == i && s.user_id == uid then updateFields d s else s) hg
  have hsess2 := sessionsFor_map uid st2
    (fun s : Session => if s.id == i && s.user_id == uid then updateFields d s else s) hg
  refine ⟨?_, ?_, ?_⟩
  · unfold update_session
    rw [findSession_eq uid i st, findSession_eq uid i st2, hN]
    cases hf : (sessionsFor uid st2).find? (fun s => s.id == i) with
    | none => rfl
    | some s =>
      simp only []
      rw [findSession_eq uid i, findSession_eq uid i, hsess1, hsess2, hN]
      cases hf2 : (((sessionsFor uid st2).map (fun s : Session =>
          if s.id == i && s.user_id == uid then updateFields d s else s)).find?
            (fun s => s.id == i)) with
      | none => rfl
      | some s2 =>
        simp only []
        rw [findStudio_eq uid s2.studio_id, findStudio_eq uid s2.studio_id,
          studiosFor_sessions_set uid st, studiosFor_sessions_set uid st2, hS]
  · rw [update_session_post, update_session_post]
    simp only [projT]
    rw [studiosFor_sessions_set uid st, studiosFor_sessions_set uid st2, hS,
      hsess1, hsess2, hN]
  · rw [update_session_post]
    exact othersOf_sessions_map uid st _ hg hfix

theorem add_attendee_ni (uid : String) (i : Nat) (name : String) (st st2 : Store)
    (h : projT uid st = projT uid st2) :
    (add_attendee uid i name st).1 = (add_attendee uid i name st2).1 ∧
    projT uid (add_attendee uid i name st).2 = projT uid (add_attendee uid i name st2).2 ∧
    othersOf uid (add_attendee uid i name st).2 = othersOf uid st := by
  have hS := projT_fst uid st st2 h
  have hN := projT_snd uid st st2 h
  have hfind : findSession uid i st = findSession uid i st2 := by
    rw [findSession_eq, findSession_eq, hN]
  cases hf : findSession uid i st2 with
  | none =>
    have hf1 : findSession uid i st = none := by rw [hfind, hf]
    rw [add_attendee_post_none uid i name st hf1, add_attendee_post_none uid i name st2 hf]
    exact ⟨rfl, h, rfl⟩
  | some s =>
    have hf1 : findSession uid i st = some s := by rw [hfind, hf]
    have hg : ∀ a : Session,
        (((fun t : Session => if t.id == i && t.user_id == uid then
            { t with attendees := s.attendees ++ [name] } else t) a).user_id == uid) =
          (a.user_id == uid) := by
      intro a
      by_cases hc : (a.id == i && a.user_id == uid) = true <;> simp [hc]
    have hfix : ∀ a : Session, (a.user_id == uid) = false →
        ((fun t : Session => if t.id == i && t.user_id == uid then
            { t with attendees := s.attendees ++ [name] } else t) a) = a := by
      intro a ha
      simp only []
      rw [if_neg]
      intro hc
      rw [bool_and_right hc] at ha
      simp at ha
    have hsess1 := sessionsFor_map uid st
      (fun t : Session => if t.id == i && t.user_id == uid then
        { t with attendees := s.attendees ++ [name] } else t) hg
    have hsess2 := sessionsFor_map uid st2
      (fun t : Session => if t.id == i && t.user_id == uid then
        { t with attendees := s.attendees ++ [name] } else t) hg
    by_cases hcnd : ¬ (name ∈ s.attendees) ∧ (s.attendees.length : Int) < s.capacity
    · have hp1 := add_attendee_post_upd uid i name st s hf1 hcnd
      have hp2 := add_attendee_post_upd uid i name st2 s hf hcnd
      refine ⟨?_, ?_, ?_⟩
      · unfold add_attendee
        simp only [hf1, hf]
        rw [if_pos hcnd, if_pos hcnd]
        rw [findSession_eq uid i, findSession_eq uid i, hsess1, hsess2, hN]
        cases hf2 : (((sessionsFor uid st2).map (fun t : Session =>
            if t.id == i && t.user_id == uid then
              { t with attendees := s.attendees ++ [name] } else t)).find?
              (fun t => t.id == i)) with
        | none => rfl
        | some s2 =>
          simp only []
          rw [findStudio_eq uid s2.studio_id, findStudio_eq uid s2.studio_id,
            studiosFor_sessions_set uid st, studiosFor_sessions_set uid st2, hS]
      · rw [hp1, hp2]
        simp only [projT]
        rw [studiosFor_sessions_set uid st, studiosFor_sessions_set uid st2, hS,
          hsess1, hsess2, hN]
      · rw [hp1]
        exact othersOf_sessions_map uid st _ hg hfix
    · have hp1 := add_attendee_post_skip uid i name st s hf1 hcnd
      have hp2 := add_attendee_post_skip uid i name st2 s hf hcnd
      refine ⟨?_, ?_, ?_⟩
      · unfold add_attendee
        simp only [hf1, hf]
        rw [if_neg hcnd, if_neg hcnd]
        simp only [hf1, hf]
        rw [findStudio_eq uid s.studio_id, findStudio_eq uid s.studio_id, hS]
      · rw [hp1, hp2]
        exact h
      · rw [hp1]

theorem remove_attendee_ni (uid : String) (i : Nat) (name : String) (st st2 : Store)
    (h : projT uid st = projT uid st2) :
    (remove_attendee uid i name st).1 = (remove_attendee uid i name st2).1 ∧
    projT uid (remove_attendee uid i name st).2 =
      projT uid (remove_attendee uid i name st2).2 ∧
    othersOf uid (remove_attendee uid i name st).2 = othersOf uid st := by
  have hS := projT_fst uid st st2 h
  have hN := projT_snd uid st st2 h
  have hfind : findSession uid i st = findSession uid i st2 := by
    rw [findSession_eq, findSession_eq, hN]
  cases hf : findSession uid i st2 with
  | none =>
    have hf1 : findSession uid i st = none := by rw [hfind, hf]
    rw [remove_attendee_post_none uid i name st hf1,
      remove_attendee_post_none uid i name st2 hf]
    exact ⟨rfl, h, rfl⟩
  | some s =>
    have hf1 : findSession uid i st = some s := by rw [hfind, hf]
    have hg : ∀ a : Session,
        (((fun t : Session => if t.id == i && t.user_id == uid then
            { t with attendees := s.attendees.erase name } else t) a).user_id == uid) =
          (a.user_id == uid) := by
      intro a
      by_cases hc : (a.id == i && a.user_id == uid) = true <;> simp [hc]
    have hfix : ∀ a : Session, (a.user_id == uid) = false →
        ((fun t : Session => if t.id == i && t.user_id == uid then
            { t with attendees := s.attendees.erase name } else t) a) = a := by
      intro a ha
      simp only []
      rw [if_neg]
      intro hc
      rw [bool_and_right hc] at ha
      simp at ha
    have hsess1 := sessionsFor_map uid st
      (fun t : Session => if t.id == i && t.user_id == uid then
        { t with attendees := s.attendees.erase name } else t) hg
    have hsess2 := sessionsFor_map uid st2
      (fun t : Session => if t.id == i && t.user_id == uid then
        { t with attendees := s.attendees.erase name } else t) hg
    by_cases hcnd : name ∈ s.attendees
    · have hp1 := remove_attendee_post_upd uid i name st s hf1 hcnd
      have hp2 := remove_attendee_post_upd uid i name st2 s hf hcnd
      refine ⟨?_, ?_, ?_⟩
      · unfold remove_attendee
        simp only [hf1, hf]
        rw [if_pos hcnd, if_pos hcnd]
        rw [findSession_eq uid i, findSession_eq uid i, hsess1, hsess2, hN]
        cases hf2 : (((sessionsFor uid st2).map (fun t : Session =>
            if t.id == i && t.user_id == uid then
              { t with attendees := s.attendees.erase name } else t)).find?
              (fun t => t.id == i)) with
        | none => rfl
        | some s2 =>
          simp only []
          rw [findStudio_eq uid s2.studio_id, findStudio_eq uid s2.studio_id,
            studiosFor_sessions_set uid st, studiosFor_sessions_set uid st2, hS]
      · rw [hp1, hp2]
        simp only [projT]
        rw [studiosFor_sessions_set uid st, studiosFor_sessions_set uid st2, hS,
          hsess1, hsess2, hN]
      · rw [hp1]
        exact othersOf_sessions_map uid st _ hg hfix
    · have hp1 := remove_attendee_post_skip uid i name st s hf1 hcnd
      have hp2 := remove_attendee_post_skip uid i name st2 s hf hcnd
      refine ⟨?_, ?_, ?_⟩
      · unfold remove_attendee
        simp only [hf1, hf]
        rw [if_neg hcnd, if_neg hcnd]
        simp only [hf1, hf]
        rw [findStudio_eq uid s.studio_id, findStudio_eq uid s.studio_id, hS]
      · rw [hp1, hp2]
        exact h
      · rw [hp1]

theorem update_studio_post_none (uid : String) (i : Nat) (d : StudioData) (st : Store)
    (hf : findStudio uid i st = none) :
    update_studio uid i d st = (.error 404 "Studio not found", st) := by
  unfold update_studio
  simp only [hf]

theorem update_session_post_none (uid : String) (i : Nat) (d : SessionData) (st : Store)
    (hf : findSession uid i st = none) :
    update_session uid i d st = (.error 404 "Session not found", st) := by
  unfold update_session
  simp only [hf]

/-- Claim C3 (amended): every operation leaves other tenants' entities
unchanged; every operation's response and its effect on the caller's entities
are determined solely by the caller's own entities (for creates, additionally
by the shared AUTOINCREMENT counters, which is the one leak: the assigned id
reveals other tenants' inserts); and an id that does not resolve under the
caller's tenant — in particular any id owned by another tenant — behaves
exactly as NotFound, returning the 404 error and leaving the store
untouched. -/
theorem tenant_isolation_amended (op : ApiOp) (uid : String) (st st2 : Store)
    (tb : Bool) (ti : Nat)
    (hp : projT uid st = projT uid st2)
    (hc : op.isCreate = true →
      st.nextStudioId = st2.nextStudioId ∧ st.nextSessionId = st2.nextSessionId) :
    othersOf uid (runOp op uid st).2 = othersOf uid st ∧
    (runOp op uid st).1 = (runOp op uid st2).1 ∧
    projT uid (runOp op uid st).2 = projT uid (runOp op uid st2).2 ∧
    (op.lookupTarget = some (tb, ti) → tb = true → findStudio uid ti st = none →
       runOp op uid st = (.error 404 "Studio not found", st)) ∧
    (op.lookupTarget = some (tb, ti) → tb = false → findSession uid ti st = none →
       runOp op uid st = (.error 404 "Session not found", st)) := by
  cases op with
  | getStudios =>
    exact ⟨rfl, by simp only [runOp]; rw [get_studios_ni uid st st2 hp], hp,
      fun ht => by simp [ApiOp.lookupTarget] at ht,
      fun ht => by simp [ApiOp.lookupTarget] at ht⟩
  | addStudio d =>
    have hni := add_studio_ni uid d st st2 hp (hc rfl).1
    exact ⟨hni.2.2, congrArg Response.studio hni.1, hni.2.1,
      fun ht => by simp [ApiOp.lookupTarget] at ht,
      fun ht => by simp [ApiOp.lookupTarget] at ht⟩
  | deleteStudio i =>
    have hni := delete_studio_ni uid i st st2 hp
    refine ⟨hni.2.2, hni.1, hni.2.1, ?_, ?_⟩
    · intro ht _ hnone
      have : ti = i := by
        simp [ApiOp.lookupTarget] at ht
        exact ht.2.symm
      rw [this] at hnone
      exact delete_studio_post_none uid i st hnone
    · intro ht hb
      simp [ApiOp.lookupTarget] at ht
      rw [ht.1] at hb
      simp at hb
  | updateStudio i d =>
    have hni := update_studio_ni uid i d st st2 hp
    refine ⟨hni.2.2, hni.1, hni.2.1, ?_, ?_⟩
    · intro ht _ hnone
      have : ti = i := by
        simp [ApiOp.lookupTarget] at ht
        exact ht.2.symm
      rw [this] at hnone
      exact update_studio_post_none uid i d st hnone
    · intro ht hb
      simp [ApiOp.lookupTarget] at ht
      rw [ht.1] at hb
      simp at hb
  | getSessions =>
    exact ⟨rfl, by simp only [runOp]; rw [get_sessions_ni uid st st2 hp], hp,
      fun ht => by simp [ApiOp.lookupTarget] at ht,
      fun ht => by simp [ApiOp.lookupTarget] at ht⟩
  | addSession d =>
    have hni := add_session_ni uid d st st2 hp (hc rfl).2
    refine ⟨hni.2.2, hni.1, hni.2.1, ?_, ?_⟩
    · intro ht _ hnone
      have : ti = d.studioId := by
        simp [ApiOp.lookupTarget] at ht
        exact ht.2.symm
      rw [this] at hnone
      exact add_session_post_none uid d st hnone
    · intro ht hb
      simp [ApiOp.lookupTarget] at ht
      rw [ht.1] at hb
      simp at hb
  | deleteSession i =>
    have hni := delete_session_ni uid i st st2 hp
    refine ⟨hni.2.2, hni.1, hni.2.1, ?_, ?_⟩
    · intro ht hb
      simp [ApiOp.lookupTarget] at ht
      rw [ht.1] at hb
      simp at hb
    · intro ht _ hnone
      have : ti = i := by
        simp [ApiOp.lookupTarget] at ht
        exact ht.2.symm
      rw [this] at hnone
      exact delete_session_post_none uid i st hnone
  | updateSession i d =>
    have hni := update_session_ni uid i d st st2 hp
    refine ⟨hni.2.2, hni.1, hni.2.1, ?_, ?_⟩
    · intro ht hb
      simp [ApiOp.lookupTarget] at ht
      rw [ht.1] at hb
      simp at hb
    · intro ht _ hnone
      have : ti = i := by
        simp [ApiOp.lookupTarget] at ht
        exact ht.2.symm
      rw [this] at hnone
      exact update_session_post_none uid i d st hnone
  | addAttendee i name =>
    have hni := add_attendee_ni uid i name st st2 hp
    refine ⟨hni.2.2, hni.1, hni.2.1, ?_, ?_⟩
    · intro ht hb
      simp [ApiOp.lookupTarget] at ht
      rw [ht.1] at hb
      simp at hb
    · intro ht _ hnone
      have : ti = i := by
        simp [ApiOp.lookupTarget] at ht
        exact ht.2.symm
      rw [this] at hnone
      exact add_attendee_post_none uid i name st hnone
  | removeAttendee i name =>
    have hni := remove_attendee_ni uid i name st st2 hp
    refine ⟨hni.2.2, hni.1, hni.2.1, ?_, ?_⟩
    · intro ht hb
      simp [ApiOp.lookupTarget] at ht
      rw [ht.1] at hb
      simp at hb
    · intro ht _ hnone
      have : ti = i := by
        simp [ApiOp.lookupTarget] at ht
        exact ht.2.symm
      rw [this] at hnone
      exact remove_attendee_post_none uid i name st hnone
  | markPaid i =>
    have hni := mark_paid_ni uid i st st2 hp
    refine ⟨hni.2.2, hni.1, hni.2.1, ?_, ?_⟩
    · intro ht hb
      simp [ApiOp.lookupTarget] at ht
      rw [ht.1] at hb
      simp at hb
    · intro ht _ hnone
      have : ti = i := by
        simp [ApiOp.lookupTarget] at ht
        exact ht.2.symm
      rw [this] at hnone
      exact mark_paid_post_none uid i st hnone
  | getStats =>
    exact ⟨rfl, by simp only [runOp]; rw [get_stats_ni uid st st2 hp], hp,
      fun ht => by simp [ApiOp.lookupTarget] at ht,
      fun ht => by simp [ApiOp.lookupTarget] at ht⟩
  | getFilteredStats q =>
    exact ⟨rfl, by simp only [runOp]; rw [get_filtered_stats_ni uid q st st2 hp], hp,
      fun ht => by simp [ApiOp.lookupTarget] at ht,
      fun ht => by simp [ApiOp.lookupTarget] at ht⟩

/-- Studio payload for the C3 counterexample. -/
def cexNId : StudioData := ⟨"Flex", 10, 25, 1, 0, "#FF6B6B"⟩
/-- Store reached by another tenant (`tg_9`) creating one studio. -/
def cexNIotherStore : Store := (add_studio "tg_9" cexNId emptyStore).2

/-- Claim C3 counterexample: the two stores hold identical `tg_1`-owned
entities and differ only in another tenant's studio, yet `tg_1`'s create
returns different results (assigned id 1 vs 2) — the AUTOINCREMENT id
sequence is shared across tenants, so a create's result is not independent of
entities owned by other tenants. -/
theorem tenant_create_leaks_cex :
    projT "tg_1" emptyStore = projT "tg_1" cexNIotherStore ∧
    othersOf "tg_1" emptyStore ≠ othersOf "tg_1" cexNIotherStore ∧
    (add_studio "tg_1" cexNId emptyStore).1.id = 1 ∧
    (add_studio "tg_1" cexNId cexNIotherStore).1.id = 2 ∧
    (add_studio "tg_1" cexNId emptyStore).1 ≠ (add_studio "tg_1" cexNId cexNIotherStore).1 :=
  ⟨by decide, by decide, by decide, by decide, by decide⟩

/-- A session owned by tenant `tg_9`, with the guessable id 1. -/
def witNIsessB : Session :=
  ⟨1, "tg_9", 1, "2024-01-01", "09:00", 60, 5, "Anna", "Group", false, [], 0⟩
/-- Store holding only that foreign session. -/
def witNIst : Store := ⟨[], [witNIsessB], 1, 2⟩
/-- The same store with the foreign session removed. -/
def witNIst2 : Store := ⟨[], [], 1, 2⟩

/-- Claim C3 witness: `tenant_isolation_amended` instantiated at mark-paid
with another tenant's session id — the operation 404s and changes nothing. -/
theorem tenant_isolation_amended_witness :
    (othersOf "tg_1" (runOp (.markPaid 1) "tg_1" witNIst).2 = othersOf "tg_1" witNIst ∧
     (runOp (.markPaid 1) "tg_1" witNIst).1 = (runOp (.markPaid 1) "tg_1" witNIst2).1 ∧
     projT "tg_1" (runOp (.markPaid 1) "tg_1" witNIst).2 =
       projT "tg_1" (runOp (.markPaid 1) "tg_1" witNIst2).2 ∧
     ((ApiOp.markPaid 1).lookupTarget = some (false, 1) → false = true →
        findStudio "tg_1" 1 witNIst = none →
        runOp (.markPaid 1) "tg_1" witNIst = (.error 404 "Studio not found", witNIst)) ∧
     ((ApiOp.markPaid 1).lookupTarget = some (false, 1) → false = false →
        findSession "tg_1" 1 witNIst = none →
        runOp (.markPaid 1) "tg_1" witNIst = (.error 404 "Session not found", witNIst))) ∧
    runOp (.markPaid 1) "tg_1" witNIst = (.error 404 "Session not found", witNIst) := by
  have H := tenant_isolation_amended (.markPaid 1) "tg_1" witNIst witNIst2 false 1
    (by decide) (fun hcr => absurd hcr (by decide))
  exact ⟨H, H.2.2.2.2 rfl rfl (by decide)⟩
